import Mathlib

/-!
VKUtilities: device selection, swapchain parameters, memory types, layout transitions

A shallow embedding of `src/engine/graphics/vk/VKUtilities.cpp`.

Conventions of the embedding:

* Vulkan enumerants and flag bits are natural numbers carrying the values of the
  Vulkan headers; `uint32_t` quantities are natural numbers, reduced modulo `2^32`
  wherever the source can wrap.
* Opaque handles (`VkPhysicalDevice`, `VkSurfaceKHR`, `VkImage`) are natural numbers and
  `VK_NULL_HANDLE` is `0`.
* The Vulkan implementation the code queries is a record of query functions (`Driver`):
  each `vkGet...`/`vkEnumerate...` call of the source reads one field of it.
* A `for` loop with an early `return` or `break` is a structural recursion over the
  remaining elements, carrying the loop index and the mutable locals.
* An out-of-bounds read of a `std::vector` is the `none` of an `Option` result.
* A local that is read without having been assigned is `none` (the stage masks of a
  barrier) or an explicit argument standing for its indeterminate value (the handle
  returned by `createImageView`).
* A driver call that creates an object is a function argument giving its answer to the
  create-info record, `none` for any result other than `VK_SUCCESS`.
* `Log::Info` output is not modelled; `Log::Error` output is modelled where a function
  has no other way to signal a failure.
-/

set_option autoImplicit false

namespace VKUtilities

/-! ## Machine integers -/

/-- The largest `uint32_t`, `std::numeric_limits<uint32_t>::max()`. -/
abbrev UINT32_MAX : Nat := 4294967295

/-- The conversion `static_cast<uint32_t>(x)` of a signed integer: reduction modulo `2^32`. -/
def toUInt32 (x : Int) : Nat := (x % 4294967296).toNat

/-- The wrap-around of an unsigned 32-bit result. -/
def wrapUInt32 (x : Nat) : Nat := x % 4294967296

/-! ## Vulkan types and enumerants -/

abbrev VkBool32 := Nat
abbrev VkFlags := Nat
abbrev VkDeviceSize := Nat
abbrev VkPhysicalDevice := Nat
abbrev VkSurfaceKHR := Nat
abbrev VkSwapchainKHR := Nat
abbrev VkImage := Nat
abbrev VkImageView := Nat
abbrev VkFormat := Nat
abbrev VkColorSpaceKHR := Nat
abbrev VkPresentModeKHR := Nat
abbrev VkImageLayout := Nat
abbrev VkMemoryPropertyFlags := VkFlags
abbrev VkPipelineStageFlags := VkFlags
abbrev VkAccessFlags := VkFlags
abbrev VkImageAspectFlags := VkFlags

abbrev VK_NULL_HANDLE : Nat := 0

abbrev VK_FORMAT_UNDEFINED : VkFormat := 0
abbrev VK_FORMAT_B8G8R8A8_UNORM : VkFormat := 44
abbrev VK_FORMAT_D32_SFLOAT : VkFormat := 126
abbrev VK_FORMAT_D24_UNORM_S8_UINT : VkFormat := 129
abbrev VK_FORMAT_D32_SFLOAT_S8_UINT : VkFormat := 130

abbrev VK_COLOR_SPACE_SRGB_NONLINEAR_KHR : VkColorSpaceKHR := 0

abbrev VK_PRESENT_MODE_IMMEDIATE_KHR : VkPresentModeKHR := 0
abbrev VK_PRESENT_MODE_MAILBOX_KHR : VkPresentModeKHR := 1
abbrev VK_PRESENT_MODE_FIFO_KHR : VkPresentModeKHR := 2
abbrev VK_PRESENT_MODE_FIFO_RELAXED_KHR : VkPresentModeKHR := 3

abbrev VK_QUEUE_GRAPHICS_BIT : VkFlags := 1
abbrev VK_QUEUE_FAMILY_IGNORED : Nat := 4294967295

abbrev VK_IMAGE_LAYOUT_UNDEFINED : VkImageLayout := 0
abbrev VK_IMAGE_LAYOUT_GENERAL : VkImageLayout := 1
abbrev VK_IMAGE_LAYOUT_COLOR_ATTACHMENT_OPTIMAL : VkImageLayout := 2
abbrev VK_IMAGE_LAYOUT_DEPTH_STENCIL_ATTACHMENT_OPTIMAL : VkImageLayout := 3
abbrev VK_IMAGE_LAYOUT_SHADER_READ_ONLY_OPTIMAL : VkImageLayout := 5
abbrev VK_IMAGE_LAYOUT_TRANSFER_SRC_OPTIMAL : VkImageLayout := 6
abbrev VK_IMAGE_LAYOUT_TRANSFER_DST_OPTIMAL : VkImageLayout := 7

abbrev VK_ACCESS_SHADER_READ_BIT : VkAccessFlags := 32
abbrev VK_ACCESS_DEPTH_STENCIL_ATTACHMENT_READ_BIT : VkAccessFlags := 512
abbrev VK_ACCESS_DEPTH_STENCIL_ATTACHMENT_WRITE_BIT : VkAccessFlags := 1024
abbrev VK_ACCESS_TRANSFER_WRITE_BIT : VkAccessFlags := 4096

abbrev VK_PIPELINE_STAGE_TOP_OF_PIPE_BIT : VkPipelineStageFlags := 1
abbrev VK_PIPELINE_STAGE_FRAGMENT_SHADER_BIT : VkPipelineStageFlags := 128
abbrev VK_PIPELINE_STAGE_EARLY_FRAGMENT_TESTS_BIT : VkPipelineStageFlags := 256
abbrev VK_PIPELINE_STAGE_TRANSFER_BIT : VkPipelineStageFlags := 4096

abbrev VK_IMAGE_ASPECT_COLOR_BIT : VkImageAspectFlags := 1
abbrev VK_IMAGE_ASPECT_DEPTH_BIT : VkImageAspectFlags := 2
abbrev VK_IMAGE_ASPECT_STENCIL_BIT : VkImageAspectFlags := 4

abbrev VK_STRUCTURE_TYPE_IMAGE_MEMORY_BARRIER : Nat := 45
abbrev VK_STRUCTURE_TYPE_IMAGE_VIEW_CREATE_INFO : Nat := 15
abbrev VK_STRUCTURE_TYPE_SWAPCHAIN_CREATE_INFO_KHR : Nat := 1000001000

abbrev VK_TRUE : VkBool32 := 1
abbrev VK_SHARING_MODE_EXCLUSIVE : Nat := 0
abbrev VK_SHARING_MODE_CONCURRENT : Nat := 1
abbrev VK_IMAGE_USAGE_COLOR_ATTACHMENT_BIT : VkFlags := 16
abbrev VK_COMPOSITE_ALPHA_OPAQUE_BIT_KHR : VkFlags := 1
abbrev VK_IMAGE_VIEW_TYPE_2D : Nat := 1
abbrev VK_IMAGE_VIEW_TYPE_CUBE : Nat := 3

/-- The name behind `VK_KHR_SWAPCHAIN_EXTENSION_NAME`. -/
abbrev VK_KHR_SWAPCHAIN_EXTENSION_NAME : String := "VK_KHR_swapchain"

structure VkExtent2D where
  width : Nat
  height : Nat
  deriving DecidableEq, Repr

structure VkSurfaceFormatKHR where
  format : VkFormat
  colorSpace : VkColorSpaceKHR
  deriving DecidableEq, Repr

/-- The fields of `VkSurfaceCapabilitiesKHR` that the code reads. -/
structure VkSurfaceCapabilitiesKHR where
  minImageCount : Nat
  maxImageCount : Nat
  currentExtent : VkExtent2D
  minImageExtent : VkExtent2D
  maxImageExtent : VkExtent2D
  currentTransform : VkFlags
  deriving DecidableEq, Repr

structure VkQueueFamilyProperties where
  queueFlags : VkFlags
  queueCount : Nat
  deriving DecidableEq, Repr

structure VkMemoryType where
  propertyFlags : VkMemoryPropertyFlags
  deriving DecidableEq, Repr

/-- The memory types of a device: `memoryTypeCount` is the length of `memoryTypes`
(the entries of the fixed-size array past the count are never read). -/
structure VkPhysicalDeviceMemoryProperties where
  memoryTypes : List VkMemoryType
  deriving DecidableEq, Repr

def VkPhysicalDeviceMemoryProperties.memoryTypeCount (m : VkPhysicalDeviceMemoryProperties) : Nat :=
  m.memoryTypes.length

structure VkPhysicalDeviceFeatures where
  samplerAnisotropy : VkBool32
  deriving DecidableEq, Repr

structure VkPhysicalDeviceLimits where
  minUniformBufferOffsetAlignment : VkDeviceSize
  deriving DecidableEq, Repr

structure VkPhysicalDeviceProperties where
  limits : VkPhysicalDeviceLimits
  deriving DecidableEq, Repr

/-- The Vulkan implementation as the code sees it: one field per query the source makes. -/
structure Driver where
  /-- The handles `vkEnumeratePhysicalDevices` reports, in enumeration order. -/
  physicalDevices : List VkPhysicalDevice
  /-- The extension names of `vkEnumerateDeviceExtensionProperties`. -/
  deviceExtensionProperties : VkPhysicalDevice → List String
  /-- The families of `vkGetPhysicalDeviceQueueFamilyProperties`. -/
  queueFamilyProperties : VkPhysicalDevice → List VkQueueFamilyProperties
  /-- The answer of `vkGetPhysicalDeviceSurfaceSupportKHR` for a family index. -/
  surfaceSupport : VkPhysicalDevice → Nat → VkSurfaceKHR → VkBool32
  /-- The record of `vkGetPhysicalDeviceFeatures`. -/
  features : VkPhysicalDevice → VkPhysicalDeviceFeatures
  /-- The record of `vkGetPhysicalDeviceProperties`. -/
  properties : VkPhysicalDevice → VkPhysicalDeviceProperties
  /-- The record of `vkGetPhysicalDeviceMemoryProperties`. -/
  memoryProperties : VkPhysicalDevice → VkPhysicalDeviceMemoryProperties
  /-- The record of `vkGetPhysicalDeviceSurfaceCapabilitiesKHR`. -/
  surfaceCapabilities : VkPhysicalDevice → VkSurfaceKHR → VkSurfaceCapabilitiesKHR
  /-- The list of `vkGetPhysicalDeviceSurfaceFormatsKHR`. -/
  surfaceFormats : VkPhysicalDevice → VkSurfaceKHR → List VkSurfaceFormatKHR
  /-- The list of `vkGetPhysicalDeviceSurfacePresentModesKHR`. -/
  surfacePresentModes : VkPhysicalDevice → VkSurfaceKHR → List VkPresentModeKHR

structure SwapchainSupportDetails where
  capabilities : VkSurfaceCapabilitiesKHR
  formats : List VkSurfaceFormatKHR
  presentModes : List VkPresentModeKHR
  deriving DecidableEq, Repr

structure SwapchainParameters where
  support : SwapchainSupportDetails
  extent : VkExtent2D
  surface : VkSurfaceFormatKHR
  mode : VkPresentModeKHR
  count : Nat
  deriving DecidableEq, Repr

/-! ## Swapchain parameters -/

/-- The body of the loop of `chooseSwapPresentMode` over the remaining modes; `bestMode`
is the local of that name (its assignment in the immediate branch is commented out in
the source, so that branch does nothing). -/
def chooseSwapPresentModeLoop (bestMode : VkPresentModeKHR) :
    List VkPresentModeKHR → VkPresentModeKHR
  | [] => bestMode
  | availablePresentMode :: rest =>
    if availablePresentMode = VK_PRESENT_MODE_MAILBOX_KHR then
      availablePresentMode
    else if availablePresentMode = VK_PRESENT_MODE_IMMEDIATE_KHR then
      chooseSwapPresentModeLoop bestMode rest
    else
      chooseSwapPresentModeLoop bestMode rest

/-- Source function `VKUtilities::chooseSwapPresentMode`. -/
def chooseSwapPresentMode (availablePresentModes : List VkPresentModeKHR) : VkPresentModeKHR :=
  chooseSwapPresentModeLoop VK_PRESENT_MODE_FIFO_KHR availablePresentModes

/-- Source function `VKUtilities::chooseSwapExtent`. -/
def chooseSwapExtent (capabilities : VkSurfaceCapabilitiesKHR) (width height : Int) : VkExtent2D :=
  if capabilities.currentExtent.width ≠ UINT32_MAX then
    capabilities.currentExtent
  else
    let actualExtent : VkExtent2D := { width := toUInt32 width, height := toUInt32 height }
    { width := max capabilities.minImageExtent.width
        (min capabilities.maxImageExtent.width actualExtent.width),
      height := max capabilities.minImageExtent.height
        (min capabilities.maxImageExtent.height actualExtent.height) }

/-- The loop of `chooseSwapSurfaceFormat` looking for the preferred pair. -/
def chooseSwapSurfaceFormatLoop : List VkSurfaceFormatKHR → Option VkSurfaceFormatKHR
  | [] => none
  | availableFormat :: rest =>
    if availableFormat.format = VK_FORMAT_B8G8R8A8_UNORM
        ∧ availableFormat.colorSpace = VK_COLOR_SPACE_SRGB_NONLINEAR_KHR then
      some availableFormat
    else
      chooseSwapSurfaceFormatLoop rest

/-- Source function `VKUtilities::chooseSwapSurfaceFormat`. The result is `none` exactly where the source
reads `availableFormats[0]` of an empty vector. -/
def chooseSwapSurfaceFormat (availableFormats : List VkSurfaceFormatKHR) :
    Option VkSurfaceFormatKHR :=
  if availableFormats.length = 1
      ∧ availableFormats.head?.map VkSurfaceFormatKHR.format = some VK_FORMAT_UNDEFINED then
    some { format := VK_FORMAT_B8G8R8A8_UNORM, colorSpace := VK_COLOR_SPACE_SRGB_NONLINEAR_KHR }
  else
    match chooseSwapSurfaceFormatLoop availableFormats with
    | some availableFormat => some availableFormat
    | none => availableFormats.head?

/-- Source function `VKUtilities::querySwapchainSupport`. -/
def querySwapchainSupport (drv : Driver) (adevice : VkPhysicalDevice) (asurface : VkSurfaceKHR) :
    SwapchainSupportDetails :=
  { capabilities := drv.surfaceCapabilities adevice asurface,
    formats := drv.surfaceFormats adevice asurface,
    presentModes := drv.surfacePresentModes adevice asurface }

/-- Source function `VKUtilities::generateSwapchainParameters`. The result is `none` where the surface
format selection reads out of bounds. -/
def generateSwapchainParameters (drv : Driver) (physicalDevice : VkPhysicalDevice)
    (surface : VkSurfaceKHR) (width height : Int) : Option SwapchainParameters :=
  let support := querySwapchainSupport drv physicalDevice surface
  let extent := chooseSwapExtent support.capabilities width height
  match chooseSwapSurfaceFormat support.formats with
  | none => none
  | some surfaceFormat =>
    let mode := chooseSwapPresentMode support.presentModes
    some { support := support, extent := extent, surface := surfaceFormat, mode := mode,
           count := wrapUInt32 (support.capabilities.minImageCount + 1) }

/-! ## Queue families and device selection -/

/-- Modelled from the spec: the record `ActiveQueues` is declared in `VKUtilities.hpp`,
which is not among the sources. The spec gives it two optional integer indices,
one for the graphics queue family and one for the present queue family, both unset
in a fresh record. -/
structure ActiveQueues where
  graphicsQueue : Option Nat := none
  presentQueue : Option Nat := none
  deriving DecidableEq, Repr

/-- Modelled from the spec: `ActiveQueues::isComplete` is declared in `VKUtilities.hpp`,
which is not among the sources. The spec: complete iff both indices are set (not
necessarily distinct). -/
def ActiveQueues.isComplete (queues : ActiveQueues) : Bool :=
  queues.graphicsQueue.isSome && queues.presentQueue.isSome

/-- The loop of `getGraphicsQueueFamilyIndex` over the remaining families; `i` is the
index of the family at the head and `queues` the record filled so far. -/
def getGraphicsQueueFamilyIndexLoop (drv : Driver) (device : VkPhysicalDevice)
    (surface : VkSurfaceKHR) : List VkQueueFamilyProperties → Nat → ActiveQueues → ActiveQueues
  | [], _, queues => queues
  | queueFamily :: rest, i, queues =>
    let queues₁ : ActiveQueues :=
      if queueFamily.queueCount > 0 ∧ (queueFamily.queueFlags &&& VK_QUEUE_GRAPHICS_BIT) ≠ 0 then
        { queues with graphicsQueue := some i }
      else queues
    let presentSupport : VkBool32 := drv.surfaceSupport device i surface
    let queues₂ : ActiveQueues :=
      if queueFamily.queueCount > 0 ∧ presentSupport ≠ 0 then
        { queues₁ with presentQueue := some i }
      else queues₁
    if queues₂.isComplete then queues₂
    else getGraphicsQueueFamilyIndexLoop drv device surface rest (i + 1) queues₂

/-- Source function `VKUtilities::getGraphicsQueueFamilyIndex`. -/
def getGraphicsQueueFamilyIndex (drv : Driver) (device : VkPhysicalDevice)
    (surface : VkSurfaceKHR) : ActiveQueues :=
  getGraphicsQueueFamilyIndexLoop drv device surface (drv.queueFamilyProperties device) 0 {}

/-- The required device extensions, `deviceExtensions` of the source. -/
def deviceExtensions : List String := [VK_KHR_SWAPCHAIN_EXTENSION_NAME]

/-- Source function `VKUtilities::checkDeviceExtensionSupport`. The `std::set` of required names is a
list from which `erase` removes every occurrence of a name. -/
def checkDeviceExtensionSupport (drv : Driver) (device : VkPhysicalDevice) : Bool :=
  let availableExtensions := drv.deviceExtensionProperties device
  let requiredExtensions : List String := deviceExtensions
  let requiredExtensions := availableExtensions.foldl
    (fun required extensionName => required.filter (fun name => name ≠ extensionName))
    requiredExtensions
  requiredExtensions.isEmpty

/-- Source function `VKUtilities::isDeviceSuitable`. -/
def isDeviceSuitable (drv : Driver) (adevice : VkPhysicalDevice) (asurface : VkSurfaceKHR) : Bool :=
  let extensionsSupported := checkDeviceExtensionSupport drv adevice
  let isComplete := (getGraphicsQueueFamilyIndex drv adevice asurface).isComplete
  let supportedFeatures := drv.features adevice
  let swapChainAdequate : Bool :=
    if extensionsSupported then
      let swapChainSupport := querySwapchainSupport drv adevice asurface
      !swapChainSupport.formats.isEmpty && !swapChainSupport.presentModes.isEmpty
    else false
  extensionsSupported && isComplete && swapChainAdequate
    && decide (supportedFeatures.samplerAnisotropy ≠ 0)

/-- The device loop of `createPhysicalDevice`; the second argument is the current value
of `physicalDevice`. -/
def createPhysicalDeviceLoop (drv : Driver) (surface : VkSurfaceKHR) :
    List VkPhysicalDevice → VkPhysicalDevice → VkPhysicalDevice
  | [], physicalDevice => physicalDevice
  | device :: rest, physicalDevice =>
    if isDeviceSuitable drv device surface then device
    else createPhysicalDeviceLoop drv surface rest physicalDevice

/-- What `createPhysicalDevice` leaves behind: its return code and its two reference
arguments. -/
structure PhysicalDeviceResult where
  code : Int
  physicalDevice : VkPhysicalDevice
  minUniformOffset : VkDeviceSize
  deriving DecidableEq, Repr

/-- Source function `VKUtilities::createPhysicalDevice`. The instance is the driver; `minUniformOffset`
is the value the reference argument holds on entry. -/
def createPhysicalDevice (drv : Driver) (surface : VkSurfaceKHR) (minUniformOffset : VkDeviceSize) :
    PhysicalDeviceResult :=
  let physicalDevice : VkPhysicalDevice := VK_NULL_HANDLE
  let deviceCount := drv.physicalDevices.length
  if deviceCount = 0 then
    { code := 3, physicalDevice := physicalDevice, minUniformOffset := minUniformOffset }
  else
    let devices := drv.physicalDevices
    let physicalDevice := createPhysicalDeviceLoop drv surface devices physicalDevice
    if physicalDevice = VK_NULL_HANDLE then
      { code := 3, physicalDevice := physicalDevice, minUniformOffset := minUniformOffset }
    else
      let properties := drv.properties physicalDevice
      { code := 0, physicalDevice := physicalDevice,
        minUniformOffset := properties.limits.minUniformBufferOffsetAlignment }

/-! ## Memory types -/

/-- The loop of `findMemoryType` from index `i` over the memory types not yet visited;
falling off the end is the `return 0` after the error message. The shift `1 << i` is
taken in the naturals, which agrees with the 32-bit shift of the source for `i < 32`;
a device reports at most 32 memory types. -/
def findMemoryTypeLoop (typeFilter : Nat) (properties : VkMemoryPropertyFlags) :
    List VkMemoryType → Nat → Nat
  | [], _ => 0
  | memoryType :: rest, i =>
    if (typeFilter &&& (1 <<< i)) ≠ 0 ∧ (memoryType.propertyFlags &&& properties) = properties then
      i
    else
      findMemoryTypeLoop typeFilter properties rest (i + 1)

/-- Source function `VKUtilities::findMemoryType`. -/
def findMemoryType (drv : Driver) (typeFilter : Nat) (properties : VkMemoryPropertyFlags)
    (physicalDevice : VkPhysicalDevice) : Nat :=
  let memProperties := drv.memoryProperties physicalDevice
  findMemoryTypeLoop typeFilter properties memProperties.memoryTypes 0

/-! ## Layout transitions -/

/-- Source function `VKUtilities::hasStencilComponent`. -/
def hasStencilComponent (format : VkFormat) : Bool :=
  format = VK_FORMAT_D32_SFLOAT_S8_UINT || format = VK_FORMAT_D24_UNORM_S8_UINT

structure VkImageSubresourceRange where
  aspectMask : VkImageAspectFlags
  baseMipLevel : Nat
  levelCount : Nat
  baseArrayLayer : Nat
  layerCount : Nat
  deriving DecidableEq, Repr

structure VkImageMemoryBarrier where
  sType : Nat
  srcAccessMask : VkAccessFlags
  dstAccessMask : VkAccessFlags
  oldLayout : VkImageLayout
  newLayout : VkImageLayout
  srcQueueFamilyIndex : Nat
  dstQueueFamilyIndex : Nat
  image : VkImage
  subresourceRange : VkImageSubresourceRange
  deriving DecidableEq, Repr

/-- One `vkCmdPipelineBarrier` call with a single image barrier. A stage mask is `none`
when the local passed for it was never assigned. -/
structure PipelineBarrierCall where
  srcStageMask : Option VkPipelineStageFlags
  dstStageMask : Option VkPipelineStageFlags
  barrier : VkImageMemoryBarrier
  deriving DecidableEq, Repr

/-- What a call of `transitionImageLayout` does: the error lines it logs, the barriers it
records in its one-shot command buffer, and whether that buffer is submitted. -/
structure TransitionEffect where
  errors : List String
  recorded : List PipelineBarrierCall
  submitted : Bool
  deriving DecidableEq, Repr

/-- Source function `VKUtilities::transitionImageLayout`. The device, command pool and queue handles are
only handed on to the driver and are left out. `masks` is the outcome of the chain of
tests on the layouts: the barrier with its access masks, the two stage locals (`none`
while unassigned) and the error lines logged. The barrier call and the submission of
the command buffer follow the chain on every path. -/
def transitionImageLayout (image : VkImage) (format : VkFormat)
    (oldLayout newLayout : VkImageLayout) (cube : Bool) (mipCount : Nat) : TransitionEffect :=
  let aspectMask : VkImageAspectFlags :=
    if newLayout = VK_IMAGE_LAYOUT_DEPTH_STENCIL_ATTACHMENT_OPTIMAL then
      if hasStencilComponent format then VK_IMAGE_ASPECT_DEPTH_BIT ||| VK_IMAGE_ASPECT_STENCIL_BIT
      else VK_IMAGE_ASPECT_DEPTH_BIT
    else VK_IMAGE_ASPECT_COLOR_BIT
  let barrier : VkImageMemoryBarrier :=
    { sType := VK_STRUCTURE_TYPE_IMAGE_MEMORY_BARRIER,
      srcAccessMask := 0,
      dstAccessMask := 0,
      oldLayout := oldLayout,
      newLayout := newLayout,
      srcQueueFamilyIndex := VK_QUEUE_FAMILY_IGNORED,
      dstQueueFamilyIndex := VK_QUEUE_FAMILY_IGNORED,
      image := image,
      subresourceRange :=
        { aspectMask := aspectMask, baseMipLevel := 0, levelCount := mipCount,
          baseArrayLayer := 0, layerCount := if cube then 6 else 1 } }
  let masks : VkImageMemoryBarrier × Option VkPipelineStageFlags × Option VkPipelineStageFlags
      × List String :=
    if oldLayout = VK_IMAGE_LAYOUT_UNDEFINED
        ∧ newLayout = VK_IMAGE_LAYOUT_TRANSFER_DST_OPTIMAL then
      ({ barrier with srcAccessMask := 0, dstAccessMask := VK_ACCESS_TRANSFER_WRITE_BIT },
        some VK_PIPELINE_STAGE_TOP_OF_PIPE_BIT, some VK_PIPELINE_STAGE_TRANSFER_BIT, [])
    else if oldLayout = VK_IMAGE_LAYOUT_TRANSFER_DST_OPTIMAL
        ∧ newLayout = VK_IMAGE_LAYOUT_SHADER_READ_ONLY_OPTIMAL then
      ({ barrier with srcAccessMask := VK_ACCESS_TRANSFER_WRITE_BIT,
                      dstAccessMask := VK_ACCESS_SHADER_READ_BIT },
        some VK_PIPELINE_STAGE_TRANSFER_BIT, some VK_PIPELINE_STAGE_FRAGMENT_SHADER_BIT, [])
    else if oldLayout = VK_IMAGE_LAYOUT_UNDEFINED
        ∧ newLayout = VK_IMAGE_LAYOUT_DEPTH_STENCIL_ATTACHMENT_OPTIMAL then
      ({ barrier with srcAccessMask := 0,
                      dstAccessMask := VK_ACCESS_DEPTH_STENCIL_ATTACHMENT_READ_BIT
                        ||| VK_ACCESS_DEPTH_STENCIL_ATTACHMENT_WRITE_BIT },
        some VK_PIPELINE_STAGE_TOP_OF_PIPE_BIT, some VK_PIPELINE_STAGE_EARLY_FRAGMENT_TESTS_BIT, [])
    else
      (barrier, none, none, ["Unsupported layout transition."])
  { errors := masks.2.2.2,
    recorded := [{ srcStageMask := masks.2.1, dstStageMask := masks.2.2.1, barrier := masks.1 }],
    submitted := true }

/-! ## Swapchain creation -/

/-- Modelled from the spec: the conversion `(uint32_t)(index)` of an index of
`ActiveQueues`, whose declaration is in `VKUtilities.hpp`, not among the sources. A set
index is converted as an integer; the spec gives an unset index no integer value, so
its conversion stays unset. -/
def queueIndexToUInt32 (index : Option Nat) : Option Nat :=
  index.map wrapUInt32

/-- The fields of `VkSwapchainCreateInfoKHR` that `createSwapchain` assigns.
`pQueueFamilyIndices` is `none` for `nullptr` and otherwise holds the two entries of the
local array `queueFamilyIndices`. -/
structure VkSwapchainCreateInfoKHR where
  sType : Nat
  surface : VkSurfaceKHR
  minImageCount : Nat
  imageFormat : VkFormat
  imageColorSpace : VkColorSpaceKHR
  imageExtent : VkExtent2D
  imageArrayLayers : Nat
  imageUsage : VkFlags
  imageSharingMode : Nat
  queueFamilyIndexCount : Nat
  pQueueFamilyIndices : Option (Option Nat × Option Nat)
  preTransform : VkFlags
  compositeAlpha : VkFlags
  presentMode : VkPresentModeKHR
  clipped : VkBool32
  oldSwapchain : VkSwapchainKHR
  deriving DecidableEq, Repr

/-- What `createSwapchain` leaves behind: its return code, the reference arguments
`parameters` and `swapchain` after the call, and the record it handed to
`vkCreateSwapchainKHR`. -/
structure SwapchainResult where
  code : Int
  parameters : SwapchainParameters
  swapchain : VkSwapchainKHR
  createInfo : VkSwapchainCreateInfoKHR
  deriving DecidableEq, Repr

/-- Source function `VKUtilities::createSwapchain`. The first argument is the answer of
the driver call `vkCreateSwapchainKHR` to a create-info record (`none` for any result
other than `VK_SUCCESS`); `swapchain` is the value the reference argument holds on
entry. The device handle is only handed on to the driver and is left out. -/
def createSwapchain (vkCreateSwapchainKHR : VkSwapchainCreateInfoKHR → Option VkSwapchainKHR)
    (parameters : SwapchainParameters) (surface : VkSurfaceKHR) (queues : ActiveQueues)
    (swapchain : VkSwapchainKHR) (oldSwapchain : VkSwapchainKHR) : SwapchainResult :=
  let parameters : SwapchainParameters :=
    if parameters.support.capabilities.maxImageCount > 0
        ∧ parameters.count > parameters.support.capabilities.maxImageCount then
      { parameters with count := parameters.support.capabilities.maxImageCount }
    else parameters
  let queueFamilyIndices : Option Nat × Option Nat :=
    (queueIndexToUInt32 queues.graphicsQueue, queueIndexToUInt32 queues.presentQueue)
  let sharing : Nat × Nat × Option (Option Nat × Option Nat) :=
    if queues.graphicsQueue ≠ queues.presentQueue then
      (VK_SHARING_MODE_CONCURRENT, 2, some queueFamilyIndices)
    else
      (VK_SHARING_MODE_EXCLUSIVE, 0, none)
  let createSwapInfo : VkSwapchainCreateInfoKHR :=
    { sType := VK_STRUCTURE_TYPE_SWAPCHAIN_CREATE_INFO_KHR,
      surface := surface,
      minImageCount := parameters.count,
      imageFormat := parameters.surface.format,
      imageColorSpace := parameters.surface.colorSpace,
      imageExtent := parameters.extent,
      imageArrayLayers := 1,
      imageUsage := VK_IMAGE_USAGE_COLOR_ATTACHMENT_BIT,
      imageSharingMode := sharing.1,
      queueFamilyIndexCount := sharing.2.1,
      pQueueFamilyIndices := sharing.2.2,
      preTransform := parameters.support.capabilities.currentTransform,
      compositeAlpha := VK_COMPOSITE_ALPHA_OPAQUE_BIT_KHR,
      presentMode := parameters.mode,
      clipped := VK_TRUE,
      oldSwapchain := oldSwapchain }
  match vkCreateSwapchainKHR createSwapInfo with
  | some created =>
    { code := 0, parameters := parameters, swapchain := created, createInfo := createSwapInfo }
  | none =>
    { code := 3, parameters := parameters, swapchain := swapchain, createInfo := createSwapInfo }

/-! ## Image views -/

structure VkImageViewCreateInfo where
  sType : Nat
  image : VkImage
  viewType : Nat
  format : VkFormat
  subresourceRange : VkImageSubresourceRange
  deriving DecidableEq, Repr

/-- What a call of `createImageView` does: the error lines it logs and the handle it
returns. -/
structure ImageViewResult where
  errors : List String
  imageView : VkImageView
  deriving DecidableEq, Repr

/-- Source function `VKUtilities::createImageView`. The first argument is the answer of
the driver call `vkCreateImageView` to a create-info record (`none` for any result other
than `VK_SUCCESS`). The local `imageView` is declared without an initialiser:
`indeterminate` is the value it holds when the driver call did not store a handle. The
device handle is only handed on to the driver and is left out. -/
def createImageView (vkCreateImageView : VkImageViewCreateInfo → Option VkImageView)
    (indeterminate : VkImageView) (image : VkImage) (format : VkFormat)
    (aspectFlags : VkImageAspectFlags) (cube : Bool) (mipCount : Nat) : ImageViewResult :=
  let viewInfo : VkImageViewCreateInfo :=
    { sType := VK_STRUCTURE_TYPE_IMAGE_VIEW_CREATE_INFO,
      image := image,
      viewType := if cube then VK_IMAGE_VIEW_TYPE_CUBE else VK_IMAGE_VIEW_TYPE_2D,
      format := format,
      subresourceRange :=
        { aspectMask := aspectFlags, baseMipLevel := 0, levelCount := mipCount,
          baseArrayLayer := 0, layerCount := if cube then 6 else 1 } }
  let imageView : VkImageView := indeterminate
  match vkCreateImageView viewInfo with
  | some created => { errors := [], imageView := created }
  | none => { errors := ["Unable to create image view."], imageView := imageView }

/-! ## Predicates used to state the claims -/

/-- Index `i` is a match for `findMemoryType`: it is below the number of memory types,
bit `i` of the filter is set, and the property flags of type `i` include every requested
flag. -/
def memoryTypeMatches (typeFilter : Nat) (properties : VkMemoryPropertyFlags)
    (memoryTypes : List VkMemoryType) (i : Nat) : Bool :=
  typeFilter.testBit i
    && (memoryTypes[i]?).any (fun memoryType => memoryType.propertyFlags &&& properties == properties)

/-- The test of the graphics branch of `getGraphicsQueueFamilyIndex` on one family: it
has at least one queue and the graphics bit is set in its flags. -/
def familySupportsGraphics (queueFamily : VkQueueFamilyProperties) : Bool :=
  decide (queueFamily.queueCount > 0 ∧ (queueFamily.queueFlags &&& VK_QUEUE_GRAPHICS_BIT) ≠ 0)

/-- The test of the present branch of `getGraphicsQueueFamilyIndex` on the family of
index `i`: it has at least one queue and the driver reports present support for that
index on the surface. -/
def familySupportsPresent (drv : Driver) (device : VkPhysicalDevice) (surface : VkSurfaceKHR)
    (i : Nat) (queueFamily : VkQueueFamilyProperties) : Bool :=
  decide (queueFamily.queueCount > 0 ∧ drv.surfaceSupport device i surface ≠ 0)

/-- Family `i` of the device passes the graphics test. -/
def graphicsAt (drv : Driver) (device : VkPhysicalDevice) (i : Nat) : Bool :=
  ((drv.queueFamilyProperties device)[i]?).any familySupportsGraphics

/-- Family `i` of the device passes the present test for the surface. -/
def presentAt (drv : Driver) (device : VkPhysicalDevice) (surface : VkSurfaceKHR) (i : Nat) :
    Bool :=
  ((drv.queueFamilyProperties device)[i]?).any (familySupportsPresent drv device surface i)

/-- One iteration of the loop of `getGraphicsQueueFamilyIndex` before its completeness
test: the record after the two assignments for the family of index `i`. -/
def visitFamily (drv : Driver) (device : VkPhysicalDevice) (surface : VkSurfaceKHR)
    (queueFamily : VkQueueFamilyProperties) (i : Nat) (queues : ActiveQueues) : ActiveQueues :=
  { graphicsQueue := if familySupportsGraphics queueFamily then some i else queues.graphicsQueue,
    presentQueue :=
      if familySupportsPresent drv device surface i queueFamily then some i
      else queues.presentQueue }

/-! ## Concrete inputs used by the examples below -/

/-- A capability record with a fixed current extent of 800 by 600. -/
def capsFixedExtent : VkSurfaceCapabilitiesKHR :=
  { minImageCount := 2, maxImageCount := 3,
    currentExtent := { width := 800, height := 600 },
    minImageExtent := { width := 1, height := 1 },
    maxImageExtent := { width := 4096, height := 4096 },
    currentTransform := 1 }

/-- A capability record with the sentinel current extent and the range 64..4096 by 32..2048. -/
def capsSentinelExtent : VkSurfaceCapabilitiesKHR :=
  { minImageCount := 2, maxImageCount := 3,
    currentExtent := { width := UINT32_MAX, height := UINT32_MAX },
    minImageExtent := { width := 64, height := 32 },
    maxImageExtent := { width := 4096, height := 2048 },
    currentTransform := 1 }

/-- A capability record whose image count bounds are both 3. -/
def capsTightCount : VkSurfaceCapabilitiesKHR :=
  { minImageCount := 3, maxImageCount := 3,
    currentExtent := { width := 800, height := 600 },
    minImageExtent := { width := 1, height := 1 },
    maxImageExtent := { width := 4096, height := 4096 },
    currentTransform := 1 }

/-- A driver with one device (handle 1) whose surface reports `capabilities`, one
surface format, FIFO presentation, one graphics and present capable queue family, the
swapchain extension and anisotropic sampling. -/
def driverWith (capabilities : VkSurfaceCapabilitiesKHR) : Driver :=
  { physicalDevices := [1],
    deviceExtensionProperties := fun _ => ["VK_KHR_maintenance1", "VK_KHR_swapchain"],
    queueFamilyProperties := fun _ => [{ queueFlags := 1, queueCount := 1 }],
    surfaceSupport := fun _ _ _ => 1,
    features := fun _ => { samplerAnisotropy := 1 },
    properties := fun _ => { limits := { minUniformBufferOffsetAlignment := 256 } },
    memoryProperties := fun _ =>
      { memoryTypes := [{ propertyFlags := 1 }, { propertyFlags := 2 }, { propertyFlags := 3 }] },
    surfaceCapabilities := fun _ _ => capabilities,
    surfaceFormats := fun _ _ => [{ format := 50, colorSpace := 0 }],
    surfacePresentModes := fun _ _ => [VK_PRESENT_MODE_FIFO_KHR] }

/-- A driver with no device at all. -/
def driverNoDevice : Driver :=
  { driverWith capsFixedExtent with physicalDevices := [] }

/-- A driver with two devices (handles 1 and 2) neither of which supports anisotropic
sampling. -/
def driverUnsuitable : Driver :=
  { driverWith capsFixedExtent with
    physicalDevices := [1, 2],
    features := fun _ => { samplerAnisotropy := 0 } }

/-- A driver with three devices (handles 4, 5, 6): device 4 lacks the swapchain
extension, devices 5 and 6 are suitable and report alignments 64 and 128. -/
def driverThreeDevices : Driver :=
  { driverWith capsFixedExtent with
    physicalDevices := [4, 5, 6],
    deviceExtensionProperties := fun device =>
      if device = 4 then ["VK_KHR_maintenance1"] else ["VK_KHR_swapchain"],
    properties := fun device =>
      { limits := { minUniformBufferOffsetAlignment := if device = 5 then 64 else 128 } } }

/-- A driver whose device has two graphics families, of which only the second can
present to the surface. -/
def driverTwoGraphicsFamilies : Driver :=
  { driverWith capsFixedExtent with
    queueFamilyProperties := fun _ =>
      [{ queueFlags := 1, queueCount := 1 }, { queueFlags := 1, queueCount := 1 }],
    surfaceSupport := fun _ i _ => if i = 1 then 1 else 0 }

/-- A driver whose device has a compute-only family, a present-only family and two
graphics families, in that order; only family 1 can present to the surface. -/
def driverFourFamilies : Driver :=
  { driverWith capsFixedExtent with
    queueFamilyProperties := fun _ =>
      [{ queueFlags := 2, queueCount := 4 }, { queueFlags := 4, queueCount := 1 },
       { queueFlags := 3, queueCount := 2 }, { queueFlags := 1, queueCount := 1 }],
    surfaceSupport := fun _ i _ => if i = 1 then 1 else 0 }

/-- Swapchain parameters with an image count of 4 on a surface that allows 2 to 3. -/
def parametersStaleCount : SwapchainParameters :=
  { support := { capabilities := capsFixedExtent,
                 formats := [{ format := 44, colorSpace := 0 }],
                 presentModes := [VK_PRESENT_MODE_FIFO_KHR] },
    extent := { width := 800, height := 600 },
    surface := { format := 44, colorSpace := 0 },
    mode := VK_PRESENT_MODE_FIFO_KHR,
    count := 4 }

/-! ## Theorems -/

/-! ### Present mode (C1) -/

theorem chooseSwapPresentModeLoop_eq (bestMode : VkPresentModeKHR)
    (modes : List VkPresentModeKHR) :
    chooseSwapPresentModeLoop bestMode modes
      = if VK_PRESENT_MODE_MAILBOX_KHR ∈ modes then VK_PRESENT_MODE_MAILBOX_KHR else bestMode := by
  induction modes with
  | nil => simp [chooseSwapPresentModeLoop]
  | cons m rest ih =>
    by_cases hm : m = 1
    · subst hm
      simp [chooseSwapPresentModeLoop]
    · have hm2 : ¬ (1 = m) := fun h => hm h.symm
      simp only [chooseSwapPresentModeLoop, hm, if_false, ite_self, ih, List.mem_cons, hm2,
        false_or]

/-- C1: for every list of available present modes, `chooseSwapPresentMode` returns
MAILBOX when the list contains MAILBOX and FIFO otherwise (FIFO for the empty list);
it never returns IMMEDIATE, whether or not IMMEDIATE is in the list. -/
theorem chooseSwapPresentMode_mailbox_else_fifo (modes : List VkPresentModeKHR) :
    chooseSwapPresentMode modes
        = (if VK_PRESENT_MODE_MAILBOX_KHR ∈ modes then VK_PRESENT_MODE_MAILBOX_KHR
           else VK_PRESENT_MODE_FIFO_KHR)
      ∧ chooseSwapPresentMode modes ≠ VK_PRESENT_MODE_IMMEDIATE_KHR
      ∧ chooseSwapPresentMode [] = VK_PRESENT_MODE_FIFO_KHR
      ∧ chooseSwapPresentMode (VK_PRESENT_MODE_IMMEDIATE_KHR :: modes)
          ≠ VK_PRESENT_MODE_IMMEDIATE_KHR := by
  refine ⟨chooseSwapPresentModeLoop_eq _ _, ?_, ?_, ?_⟩
  · unfold chooseSwapPresentMode
    rw [chooseSwapPresentModeLoop_eq]
    split <;> decide
  · unfold chooseSwapPresentMode
    rw [chooseSwapPresentModeLoop_eq]
    simp
  · unfold chooseSwapPresentMode
    rw [chooseSwapPresentModeLoop_eq]
    split <;> decide

/-! ### Extent (C2, C3) -/

/-- C2: for every capability record whose `currentExtent.width` is not the sentinel
`0xFFFFFFFF`, and every requested width and height, `chooseSwapExtent` returns
`currentExtent` itself, in both components. -/
theorem chooseSwapExtent_fixed (capabilities : VkSurfaceCapabilitiesKHR) (width height : Int)
    (hfixed : capabilities.currentExtent.width ≠ UINT32_MAX) :
    chooseSwapExtent capabilities width height = capabilities.currentExtent
      ∧ (chooseSwapExtent capabilities width height).width = capabilities.currentExtent.width
      ∧ (chooseSwapExtent capabilities width height).height
          = capabilities.currentExtent.height := by
  have h : chooseSwapExtent capabilities width height = capabilities.currentExtent := by
    unfold chooseSwapExtent
    rw [if_pos hfixed]
  exact ⟨h, by rw [h], by rw [h]⟩

theorem chooseSwapExtent_fixed_witness :
    capsFixedExtent.currentExtent.width ≠ UINT32_MAX
      ∧ chooseSwapExtent capsFixedExtent 1024 (-768) = { width := 800, height := 600 } :=
  ⟨by decide, (chooseSwapExtent_fixed capsFixedExtent 1024 (-768) (by decide)).1⟩

theorem toUInt32_of_nonneg (x : Int) (h0 : 0 ≤ x) (h1 : x < 4294967296) :
    (toUInt32 x : Int) = x := by
  unfold toUInt32
  omega

theorem toUInt32_of_neg (x : Int) (h0 : -4294967296 ≤ x) (h1 : x < 0) :
    (toUInt32 x : Int) = x + 4294967296 := by
  unfold toUInt32
  omega

theorem chooseSwapExtent_sentinel (capabilities : VkSurfaceCapabilitiesKHR) (width height : Int)
    (hsentinel : capabilities.currentExtent.width = UINT32_MAX) :
    chooseSwapExtent capabilities width height
      = { width := max capabilities.minImageExtent.width
            (min capabilities.maxImageExtent.width (toUInt32 width)),
          height := max capabilities.minImageExtent.height
            (min capabilities.maxImageExtent.height (toUInt32 height)) } := by
  unfold chooseSwapExtent
  rw [if_neg (by simpa using hsentinel)]

/-- C3: for every capability record with the sentinel `currentExtent.width == 0xFFFFFFFF`
and `minImageExtent <= maxImageExtent` on each axis, and every requested signed width and
height (converted to `uint32_t` modulo `2^32`, so that a negative request becomes a large
value), `chooseSwapExtent` returns on each axis `max(minExtent, min(maxExtent, requested))`:
the result lies between the minimum and the maximum, is the request when the request is
in range, the minimum when the request is below it and the maximum when it is above. -/
theorem chooseSwapExtent_clamps (capabilities : VkSurfaceCapabilitiesKHR) (width height : Int)
    (hsentinel : capabilities.currentExtent.width = UINT32_MAX)
    (hwidth : capabilities.minImageExtent.width ≤ capabilities.maxImageExtent.width)
    (hheight : capabilities.minImageExtent.height ≤ capabilities.maxImageExtent.height) :
    (chooseSwapExtent capabilities width height).width
        = max capabilities.minImageExtent.width
            (min capabilities.maxImageExtent.width (toUInt32 width))
      ∧ (chooseSwapExtent capabilities width height).height
        = max capabilities.minImageExtent.height
            (min capabilities.maxImageExtent.height (toUInt32 height))
      ∧ capabilities.minImageExtent.width ≤ (chooseSwapExtent capabilities width height).width
      ∧ (chooseSwapExtent capabilities width height).width ≤ capabilities.maxImageExtent.width
      ∧ capabilities.minImageExtent.height ≤ (chooseSwapExtent capabilities width height).height
      ∧ (chooseSwapExtent capabilities width height).height ≤ capabilities.maxImageExtent.height
      ∧ (capabilities.minImageExtent.width ≤ toUInt32 width
          → toUInt32 width ≤ capabilities.maxImageExtent.width
          → (chooseSwapExtent capabilities width height).width = toUInt32 width)
      ∧ (capabilities.minImageExtent.height ≤ toUInt32 height
          → toUInt32 height ≤ capabilities.maxImageExtent.height
          → (chooseSwapExtent capabilities width height).height = toUInt32 height)
      ∧ (toUInt32 width < capabilities.minImageExtent.width
          → (chooseSwapExtent capabilities width height).width
              = capabilities.minImageExtent.width)
      ∧ (toUInt32 height < capabilities.minImageExtent.height
          → (chooseSwapExtent capabilities width height).height
              = capabilities.minImageExtent.height)
      ∧ (capabilities.maxImageExtent.width < toUInt32 width
          → (chooseSwapExtent capabilities width height).width
              = capabilities.maxImageExtent.width)
      ∧ (capabilities.maxImageExtent.height < toUInt32 height
          → (chooseSwapExtent capabilities width height).height
              = capabilities.maxImageExtent.height)
      ∧ (0 ≤ width → width < 4294967296 → (toUInt32 width : Int) = width)
      ∧ (-4294967296 ≤ width → width < 0 → (toUInt32 width : Int) = width + 4294967296)
      ∧ (0 ≤ height → height < 4294967296 → (toUInt32 height : Int) = height)
      ∧ (-4294967296 ≤ height → height < 0 → (toUInt32 height : Int) = height + 4294967296) := by
  rw [chooseSwapExtent_sentinel capabilities width height hsentinel]
  simp only []
  refine ⟨trivial, trivial, ?_, ?_, ?_, ?_, ?_, ?_, ?_, ?_, ?_, ?_,
    toUInt32_of_nonneg width, toUInt32_of_neg width,
    toUInt32_of_nonneg height, toUInt32_of_neg height⟩ <;> omega

theorem chooseSwapExtent_clamps_witness :
    capsSentinelExtent.currentExtent.width = UINT32_MAX
      ∧ capsSentinelExtent.minImageExtent.width ≤ capsSentinelExtent.maxImageExtent.width
      ∧ capsSentinelExtent.minImageExtent.height ≤ capsSentinelExtent.maxImageExtent.height
      ∧ (chooseSwapExtent capsSentinelExtent (-1) 16).width = 4096
      ∧ (chooseSwapExtent capsSentinelExtent (-1) 16).height = 32 := by
  have h := chooseSwapExtent_clamps capsSentinelExtent (-1) 16 (by decide) (by decide) (by decide)
  refine ⟨by decide, by decide, by decide, ?_, ?_⟩
  · rw [h.1]; decide
  · rw [h.2.1]; decide

/-! ### Surface format (C6) -/

theorem chooseSwapSurfaceFormatLoop_eq (formats : List VkSurfaceFormatKHR) :
    chooseSwapSurfaceFormatLoop formats
      = if (∃ f ∈ formats, f.format = VK_FORMAT_B8G8R8A8_UNORM
              ∧ f.colorSpace = VK_COLOR_SPACE_SRGB_NONLINEAR_KHR)
        then some { format := VK_FORMAT_B8G8R8A8_UNORM,
                    colorSpace := VK_COLOR_SPACE_SRGB_NONLINEAR_KHR }
        else none := by
  induction formats with
  | nil => simp [chooseSwapSurfaceFormatLoop]
  | cons f rest ih =>
    unfold chooseSwapSurfaceFormatLoop
    by_cases hf : f.format = 44 ∧ f.colorSpace = 0
    · have hfeq : f = { format := 44, colorSpace := 0 } := by
        cases f
        simp only [VkSurfaceFormatKHR.mk.injEq]
        exact hf
      rw [if_pos hf, if_pos ⟨f, List.mem_cons_self _ _, hf⟩, hfeq]
    · rw [if_neg hf, ih]
      by_cases hrest : ∃ g ∈ rest, g.format = 44 ∧ g.colorSpace = 0
      · obtain ⟨g, hg, hg2⟩ := hrest
        rw [if_pos ⟨g, hg, hg2⟩, if_pos ⟨g, List.mem_cons_of_mem _ hg, hg2⟩]
      · rw [if_neg hrest, if_neg]
        rintro ⟨g, hg, hg2⟩
        rcases List.mem_cons.mp hg with h | h
        · exact hf (h ▸ hg2)
        · exact hrest ⟨g, h, hg2⟩

theorem chooseSwapSurfaceFormat_cons (first : VkSurfaceFormatKHR)
    (rest : List VkSurfaceFormatKHR) :
    chooseSwapSurfaceFormat (first :: rest)
      = some (if rest = [] ∧ first.format = VK_FORMAT_UNDEFINED then
                { format := VK_FORMAT_B8G8R8A8_UNORM,
                  colorSpace := VK_COLOR_SPACE_SRGB_NONLINEAR_KHR }
              else if (∃ f ∈ first :: rest, f.format = VK_FORMAT_B8G8R8A8_UNORM
                        ∧ f.colorSpace = VK_COLOR_SPACE_SRGB_NONLINEAR_KHR) then
                { format := VK_FORMAT_B8G8R8A8_UNORM,
                  colorSpace := VK_COLOR_SPACE_SRGB_NONLINEAR_KHR }
              else first) := by
  unfold chooseSwapSurfaceFormat
  rw [chooseSwapSurfaceFormatLoop_eq]
  by_cases h1 : rest = [] ∧ first.format = 0
  · rw [if_pos h1, if_pos]
    simp [h1.1, h1.2]
  · rw [if_neg h1, if_neg]
    · by_cases h2 : ∃ f ∈ first :: rest, f.format = 44 ∧ f.colorSpace = 0
      · rw [if_pos h2, if_pos h2]
      · rw [if_neg h2, if_neg h2]
        rfl
    · intro h
      apply h1
      refine ⟨?_, by simpa using h.2⟩
      have := h.1
      simpa using this

theorem chooseSwapSurfaceFormat_isSome (formats : List VkSurfaceFormatKHR) (hne : formats ≠ []) :
    ∃ f, chooseSwapSurfaceFormat formats = some f := by
  cases formats with
  | nil => exact absurd rfl hne
  | cons first rest => exact ⟨_, chooseSwapSurfaceFormat_cons first rest⟩

/-- C6: for every non-empty list of offered surface formats, `chooseSwapSurfaceFormat`
returns a format (the read of index 0 is in bounds), namely: the pair (B8G8R8A8_UNORM,
SRGB_NONLINEAR) when the list is a single entry whose format is UNDEFINED; otherwise
that exact pair when some entry of the list has both that format and that colour
space; otherwise the first entry of the list. -/
theorem chooseSwapSurfaceFormat_selection (availableFormats : List VkSurfaceFormatKHR)
    (hne : availableFormats ≠ []) :
    (∃ f, chooseSwapSurfaceFormat availableFormats = some f)
      ∧ (availableFormats.length = 1
          → (availableFormats.head hne).format = VK_FORMAT_UNDEFINED
          → chooseSwapSurfaceFormat availableFormats
              = some { format := VK_FORMAT_B8G8R8A8_UNORM,
                       colorSpace := VK_COLOR_SPACE_SRGB_NONLINEAR_KHR })
      ∧ (¬ (availableFormats.length = 1
              ∧ (availableFormats.head hne).format = VK_FORMAT_UNDEFINED)
          → (∃ f ∈ availableFormats, f.format = VK_FORMAT_B8G8R8A8_UNORM
                ∧ f.colorSpace = VK_COLOR_SPACE_SRGB_NONLINEAR_KHR)
          → chooseSwapSurfaceFormat availableFormats
              = some { format := VK_FORMAT_B8G8R8A8_UNORM,
                       colorSpace := VK_COLOR_SPACE_SRGB_NONLINEAR_KHR })
      ∧ (¬ (availableFormats.length = 1
              ∧ (availableFormats.head hne).format = VK_FORMAT_UNDEFINED)
          → ¬ (∃ f ∈ availableFormats, f.format = VK_FORMAT_B8G8R8A8_UNORM
                ∧ f.colorSpace = VK_COLOR_SPACE_SRGB_NONLINEAR_KHR)
          → chooseSwapSurfaceFormat availableFormats = some (availableFormats.head hne)) := by
  cases availableFormats with
  | nil => exact absurd rfl hne
  | cons first rest =>
    have hlen : (first :: rest).length = 1 ↔ rest = [] := by simp
    refine ⟨⟨_, chooseSwapSurfaceFormat_cons first rest⟩, ?_, ?_, ?_⟩
    · intro h1 h2
      rw [chooseSwapSurfaceFormat_cons, if_pos ⟨hlen.mp h1, h2⟩]
    · intro h1 h2
      rw [chooseSwapSurfaceFormat_cons, if_neg (fun h => h1 ⟨hlen.mpr h.1, h.2⟩), if_pos h2]
    · intro h1 h2
      rw [chooseSwapSurfaceFormat_cons, if_neg (fun h => h1 ⟨hlen.mpr h.1, h.2⟩), if_neg h2]
      rfl

theorem chooseSwapSurfaceFormat_selection_witness :
    ([{ format := 50, colorSpace := 0 }, { format := 44, colorSpace := 0 }]
        : List VkSurfaceFormatKHR) ≠ []
      ∧ chooseSwapSurfaceFormat [{ format := 50, colorSpace := 0 }, { format := 44, colorSpace := 0 }]
          = some { format := VK_FORMAT_B8G8R8A8_UNORM,
                   colorSpace := VK_COLOR_SPACE_SRGB_NONLINEAR_KHR } :=
  ⟨by decide,
   (chooseSwapSurfaceFormat_selection
      [{ format := 50, colorSpace := 0 }, { format := 44, colorSpace := 0 }] (by decide)).2.2.1
      (by decide) ⟨{ format := 44, colorSpace := 0 }, by decide, rfl, rfl⟩⟩

/-! ### Image count of the generated parameters (C4) -/

theorem generateSwapchainParameters_eq (drv : Driver) (physicalDevice : VkPhysicalDevice)
    (surface : VkSurfaceKHR) (width height : Int) (surfaceFormat : VkSurfaceFormatKHR)
    (hformat : chooseSwapSurfaceFormat (drv.surfaceFormats physicalDevice surface)
      = some surfaceFormat) :
    generateSwapchainParameters drv physicalDevice surface width height
      = some { support := querySwapchainSupport drv physicalDevice surface,
               extent := chooseSwapExtent (drv.surfaceCapabilities physicalDevice surface)
                 width height,
               surface := surfaceFormat,
               mode := chooseSwapPresentMode (drv.surfacePresentModes physicalDevice surface),
               count := wrapUInt32
                 ((drv.surfaceCapabilities physicalDevice surface).minImageCount + 1) } := by
  unfold generateSwapchainParameters
  simp only [querySwapchainSupport, hformat]

/-- C4, as the code has it: the image count stored by `generateSwapchainParameters` on a
surface with `minImageCount = 3` and `maxImageCount = 3` is 4, which is not
`min(minImageCount + 1, maxImageCount) = 3` and exceeds the non-zero `maxImageCount`. -/
theorem generateSwapchainParameters_exceeds_maxImageCount :
    ∃ parameters,
      generateSwapchainParameters (driverWith capsTightCount) 1 1 800 600 = some parameters
        ∧ 0 < parameters.support.capabilities.maxImageCount
        ∧ parameters.count = 4
        ∧ parameters.count ≠ min (parameters.support.capabilities.minImageCount + 1)
            parameters.support.capabilities.maxImageCount
        ∧ parameters.support.capabilities.maxImageCount < parameters.count :=
  ⟨_, rfl, by decide, by decide, by decide, by decide⟩

/-- C4, amended: for every surface whose format list is not empty,
`generateSwapchainParameters` returns parameters whose image count is
`minImageCount + 1` (reduced modulo `2^32`), whatever `maxImageCount` is. For
`minImageCount < 0xFFFFFFFF` that is `minImageCount + 1`, in particular when
`maxImageCount == 0`, and it is `min(minImageCount + 1, maxImageCount)` when
`minImageCount + 1 <= maxImageCount`. -/
theorem generateSwapchainParameters_count (drv : Driver) (physicalDevice : VkPhysicalDevice)
    (surface : VkSurfaceKHR) (width height : Int)
    (hformats : drv.surfaceFormats physicalDevice surface ≠ []) :
    ∃ parameters,
      generateSwapchainParameters drv physicalDevice surface width height = some parameters
        ∧ parameters.support.capabilities = drv.surfaceCapabilities physicalDevice surface
        ∧ parameters.count
            = ((drv.surfaceCapabilities physicalDevice surface).minImageCount + 1) % 4294967296
        ∧ ((drv.surfaceCapabilities physicalDevice surface).minImageCount < UINT32_MAX
            → parameters.count
                = (drv.surfaceCapabilities physicalDevice surface).minImageCount + 1)
        ∧ ((drv.surfaceCapabilities physicalDevice surface).minImageCount < UINT32_MAX
            → (drv.surfaceCapabilities physicalDevice surface).maxImageCount = 0
            → parameters.count
                = (drv.surfaceCapabilities physicalDevice surface).minImageCount + 1)
        ∧ ((drv.surfaceCapabilities physicalDevice surface).minImageCount < UINT32_MAX
            → (drv.surfaceCapabilities physicalDevice surface).minImageCount + 1
                ≤ (drv.surfaceCapabilities physicalDevice surface).maxImageCount
            → parameters.count
                = min ((drv.surfaceCapabilities physicalDevice surface).minImageCount + 1)
                    (drv.surfaceCapabilities physicalDevice surface).maxImageCount) := by
  obtain ⟨surfaceFormat, hformat⟩ :=
    chooseSwapSurfaceFormat_isSome (drv.surfaceFormats physicalDevice surface) hformats
  refine ⟨_, generateSwapchainParameters_eq drv physicalDevice surface width height
    surfaceFormat hformat, rfl, rfl, ?_, ?_, ?_⟩
  · intro h
    simp only [wrapUInt32, UINT32_MAX] at h ⊢
    omega
  · intro h _
    simp only [wrapUInt32, UINT32_MAX] at h ⊢
    omega
  · intro h hle
    simp only [wrapUInt32, UINT32_MAX] at h ⊢
    omega

theorem generateSwapchainParameters_count_witness :
    (driverWith capsFixedExtent).surfaceFormats 1 1 ≠ []
      ∧ ∃ parameters,
          generateSwapchainParameters (driverWith capsFixedExtent) 1 1 800 600 = some parameters
            ∧ parameters.count = 3 := by
  refine ⟨by decide, ?_⟩
  obtain ⟨parameters, h1, _, h2, _⟩ :=
    generateSwapchainParameters_count (driverWith capsFixedExtent) 1 1 800 600 (by decide)
  exact ⟨parameters, h1, by rw [h2]; decide⟩

/-! ### Memory type lookup (C5) -/

theorem and_one_shiftLeft_ne_zero (typeFilter i : Nat) :
    (typeFilter &&& (1 <<< i)) ≠ 0 ↔ typeFilter.testBit i = true := by
  rw [Nat.one_shiftLeft, Nat.and_two_pow]
  cases h : typeFilter.testBit i
  · simp
  · simp

theorem memoryTypeMatches_cons_succ (typeFilter i : Nat) (properties : VkMemoryPropertyFlags)
    (memoryType : VkMemoryType) (rest : List VkMemoryType) (k : Nat) :
    memoryTypeMatches (typeFilter >>> i) properties (memoryType :: rest) (k + 1)
      = memoryTypeMatches (typeFilter >>> (i + 1)) properties rest k := by
  unfold memoryTypeMatches
  simp only [Nat.testBit_shiftRight, List.getElem?_cons_succ]
  have : i + (k + 1) = i + 1 + k := by omega
  rw [this]

theorem findMemoryTypeLoop_first (typeFilter : Nat) (properties : VkMemoryPropertyFlags)
    (memoryTypes : List VkMemoryType) (i k : Nat)
    (hk : memoryTypeMatches (typeFilter >>> i) properties memoryTypes k = true) :
    ∃ k₀, k₀ ≤ k
      ∧ findMemoryTypeLoop typeFilter properties memoryTypes i = i + k₀
      ∧ memoryTypeMatches (typeFilter >>> i) properties memoryTypes k₀ = true
      ∧ ∀ j, j < k₀ → memoryTypeMatches (typeFilter >>> i) properties memoryTypes j = false := by
  induction memoryTypes generalizing i k with
  | nil => simp [memoryTypeMatches] at hk
  | cons memoryType rest ih =>
    unfold findMemoryTypeLoop
    by_cases hhead : (typeFilter &&& (1 <<< i)) ≠ 0
        ∧ (memoryType.propertyFlags &&& properties) = properties
    · rw [if_pos hhead]
      refine ⟨0, Nat.zero_le _, rfl, ?_, fun j hj => absurd hj (Nat.not_lt_zero j)⟩
      have hbit := (and_one_shiftLeft_ne_zero typeFilter i).mp hhead.1
      simp [memoryTypeMatches, Nat.testBit_shiftRight, hbit, hhead.2]
    · rw [if_neg hhead]
      have hzero : memoryTypeMatches (typeFilter >>> i) properties (memoryType :: rest) 0
          = false := by
        rw [and_one_shiftLeft_ne_zero] at hhead
        cases hb : typeFilter.testBit i
        · simp [memoryTypeMatches, Nat.testBit_shiftRight, hb]
        · have hp : ¬ (memoryType.propertyFlags &&& properties) = properties :=
            fun hp => hhead ⟨hb, hp⟩
          simp [memoryTypeMatches, Nat.testBit_shiftRight, hb, hp]
      cases k with
      | zero => rw [hzero] at hk; exact absurd hk (by decide)
      | succ k =>
        rw [memoryTypeMatches_cons_succ] at hk
        obtain ⟨k₀, hle, hres, hmatch, hmin⟩ := ih (i + 1) k hk
        refine ⟨k₀ + 1, Nat.succ_le_succ hle, ?_, ?_, ?_⟩
        · rw [hres]; omega
        · rw [memoryTypeMatches_cons_succ]; exact hmatch
        · intro j hj
          cases j with
          | zero => exact hzero
          | succ j =>
            rw [memoryTypeMatches_cons_succ]
            exact hmin j (by omega)

/-- C5: for every type filter, requested property flags and list of device memory types,
when some index `i` below the memory type count has bit `i` set in the filter and
`(propertyFlags[i] & requested) == requested`, `findMemoryType` returns the smallest such
index: the result is a match, is at most `i`, and no smaller index is a match. -/
theorem findMemoryType_smallest_match (drv : Driver) (typeFilter : Nat)
    (properties : VkMemoryPropertyFlags) (physicalDevice : VkPhysicalDevice) (i : Nat)
    (hmatch : memoryTypeMatches typeFilter properties
      (drv.memoryProperties physicalDevice).memoryTypes i = true) :
    memoryTypeMatches typeFilter properties (drv.memoryProperties physicalDevice).memoryTypes
        (findMemoryType drv typeFilter properties physicalDevice) = true
      ∧ findMemoryType drv typeFilter properties physicalDevice ≤ i
      ∧ findMemoryType drv typeFilter properties physicalDevice
          < (drv.memoryProperties physicalDevice).memoryTypeCount
      ∧ ∀ j, j < findMemoryType drv typeFilter properties physicalDevice
          → memoryTypeMatches typeFilter properties
              (drv.memoryProperties physicalDevice).memoryTypes j = false := by
  have h0 : typeFilter >>> 0 = typeFilter := by simp
  obtain ⟨k₀, hle, hres, hm, hmin⟩ := findMemoryTypeLoop_first typeFilter properties
    (drv.memoryProperties physicalDevice).memoryTypes 0 i (by rw [h0]; exact hmatch)
  rw [h0] at hm hmin
  have hr : findMemoryType drv typeFilter properties physicalDevice = k₀ := by
    unfold findMemoryType
    rw [hres]; omega
  rw [hr]
  refine ⟨hm, hle, ?_, hmin⟩
  unfold VkPhysicalDeviceMemoryProperties.memoryTypeCount
  by_contra hge
  have hnone : (drv.memoryProperties physicalDevice).memoryTypes[k₀]? = none :=
    List.getElem?_eq_none (by omega)
  simp [memoryTypeMatches, hnone] at hm

theorem findMemoryType_smallest_match_witness :
    memoryTypeMatches 5 2 ((driverWith capsFixedExtent).memoryProperties 1).memoryTypes 2 = true
      ∧ memoryTypeMatches 5 2 ((driverWith capsFixedExtent).memoryProperties 1).memoryTypes
          (findMemoryType (driverWith capsFixedExtent) 5 2 1) = true
      ∧ findMemoryType (driverWith capsFixedExtent) 5 2 1 ≤ 2
      ∧ memoryTypeMatches 5 2 ((driverWith capsFixedExtent).memoryProperties 1).memoryTypes 1
          = false
      ∧ findMemoryType (driverWith capsFixedExtent) 5 2 1 = 2 :=
  ⟨by decide,
   (findMemoryType_smallest_match (driverWith capsFixedExtent) 5 2 1 2 (by decide)).1,
   (findMemoryType_smallest_match (driverWith capsFixedExtent) 5 2 1 2 (by decide)).2.1,
   by decide, by decide⟩

/-! ### Device suitability (C8) -/

theorem foldl_erase_eq_filter (available required : List String) :
    available.foldl
        (fun required extensionName => required.filter (fun name => name ≠ extensionName))
        required
      = required.filter (fun name => decide (name ∉ available)) := by
  induction available generalizing required with
  | nil => simp
  | cons a rest ih =>
    rw [List.foldl_cons, ih, List.filter_filter]
    apply List.filter_congr
    intro name _
    by_cases h1 : name = a <;> by_cases h2 : name ∈ rest <;> simp [h1, h2]

theorem checkDeviceExtensionSupport_iff (drv : Driver) (device : VkPhysicalDevice) :
    checkDeviceExtensionSupport drv device = true
      ↔ ∀ name ∈ deviceExtensions, name ∈ drv.deviceExtensionProperties device := by
  unfold checkDeviceExtensionSupport
  simp only [foldl_erase_eq_filter, List.isEmpty_iff, List.filter_eq_nil_iff,
    decide_eq_true_eq, not_not]

/-- C8: for every device and surface, `isDeviceSuitable` is true if and only if all four
hold: every required device extension name is among the available extensions of the
device; the queue family query returns a complete `ActiveQueues`; the queried swapchain
support has a non-empty format list and a non-empty present mode list; and the device
feature `samplerAnisotropy` is supported (non-zero). -/
theorem isDeviceSuitable_iff (drv : Driver) (adevice : VkPhysicalDevice)
    (asurface : VkSurfaceKHR) :
    isDeviceSuitable drv adevice asurface = true
      ↔ (∀ name ∈ deviceExtensions, name ∈ drv.deviceExtensionProperties adevice)
        ∧ (getGraphicsQueueFamilyIndex drv adevice asurface).isComplete = true
        ∧ ((querySwapchainSupport drv adevice asurface).formats ≠ []
            ∧ (querySwapchainSupport drv adevice asurface).presentModes ≠ [])
        ∧ (drv.features adevice).samplerAnisotropy ≠ 0 := by
  rw [← checkDeviceExtensionSupport_iff]
  unfold isDeviceSuitable
  cases hext : checkDeviceExtensionSupport drv adevice
  · simp
  · have hempty : ∀ {α : Type} (l : List α), l.isEmpty = false ↔ l ≠ [] := by
      intro α l
      cases l <;> simp
    simp only [Bool.true_and, if_true, Bool.and_eq_true, Bool.not_eq_true',
      decide_eq_true_eq, true_and, ne_eq, hempty]
    tauto

/-! ### Physical device selection (C7) -/

theorem createPhysicalDeviceLoop_none (drv : Driver) (surface : VkSurfaceKHR)
    (devices : List VkPhysicalDevice) (physicalDevice : VkPhysicalDevice)
    (hnone : ∀ d ∈ devices, isDeviceSuitable drv d surface = false) :
    createPhysicalDeviceLoop drv surface devices physicalDevice = physicalDevice := by
  induction devices with
  | nil => rfl
  | cons d rest ih =>
    unfold createPhysicalDeviceLoop
    rw [hnone d (List.mem_cons_self _ _)]
    simpa using ih (fun x hx => hnone x (List.mem_cons_of_mem _ hx))

theorem createPhysicalDeviceLoop_first (drv : Driver) (surface : VkSurfaceKHR)
    (devices : List VkPhysicalDevice) (physicalDevice : VkPhysicalDevice)
    (hsome : ∃ d ∈ devices, isDeviceSuitable drv d surface = true) :
    ∃ before after,
      devices = before ++ createPhysicalDeviceLoop drv surface devices physicalDevice :: after
        ∧ (∀ d ∈ before, isDeviceSuitable drv d surface = false)
        ∧ isDeviceSuitable drv (createPhysicalDeviceLoop drv surface devices physicalDevice)
            surface = true := by
  induction devices with
  | nil =>
    obtain ⟨d, hd, _⟩ := hsome
    exact absurd hd (List.not_mem_nil d)
  | cons d rest ih =>
    unfold createPhysicalDeviceLoop
    cases hd : isDeviceSuitable drv d surface
    · have hrest : ∃ x ∈ rest, isDeviceSuitable drv x surface = true := by
        obtain ⟨x, hx, hxs⟩ := hsome
        rcases List.mem_cons.mp hx with h | h
        · rw [h, hd] at hxs
          exact absurd hxs (by decide)
        · exact ⟨x, h, hxs⟩
      obtain ⟨before, after, hsplit, hbefore, hsel⟩ := ih hrest
      refine ⟨d :: before, after, ?_, ?_, ?_⟩
      · simp only [Bool.false_eq_true, if_false, List.cons_append]
        exact congrArg (List.cons d) hsplit
      · intro x hx
        rcases List.mem_cons.mp hx with h | h
        · rw [h]; exact hd
        · exact hbefore x h
      · simpa using hsel
    · exact ⟨[], rest, by simp, by simp, by simpa using hd⟩

/-- C7: for every enumerated list of physical devices (valid handles, none of them the
null handle), `createPhysicalDevice` returns 0 if and only if some device of the list
satisfies `isDeviceSuitable`; it then selects the first suitable device in enumeration
order and sets `minUniformOffset` to that device's `minUniformBufferOffsetAlignment`.
When the list is empty, or when no device is suitable, it returns 3 and leaves
`physicalDevice` the null handle. -/
theorem createPhysicalDevice_first_suitable (drv : Driver) (surface : VkSurfaceKHR)
    (minUniformOffset : VkDeviceSize)
    (hhandles : ∀ d ∈ drv.physicalDevices, d ≠ VK_NULL_HANDLE) :
    ((createPhysicalDevice drv surface minUniformOffset).code = 0
        ↔ ∃ d ∈ drv.physicalDevices, isDeviceSuitable drv d surface = true)
      ∧ ((∃ d ∈ drv.physicalDevices, isDeviceSuitable drv d surface = true)
          → ∃ before after,
              drv.physicalDevices
                  = before ++ (createPhysicalDevice drv surface minUniformOffset).physicalDevice
                      :: after
                ∧ (∀ d ∈ before, isDeviceSuitable drv d surface = false)
                ∧ isDeviceSuitable drv
                    (createPhysicalDevice drv surface minUniformOffset).physicalDevice surface
                    = true
                ∧ (createPhysicalDevice drv surface minUniformOffset).minUniformOffset
                    = (drv.properties
                        (createPhysicalDevice drv surface minUniformOffset).physicalDevice
                      ).limits.minUniformBufferOffsetAlignment)
      ∧ (drv.physicalDevices = []
          → (createPhysicalDevice drv surface minUniformOffset).code = 3
            ∧ (createPhysicalDevice drv surface minUniformOffset).physicalDevice
                = VK_NULL_HANDLE)
      ∧ ((∀ d ∈ drv.physicalDevices, isDeviceSuitable drv d surface = false)
          → (createPhysicalDevice drv surface minUniformOffset).code = 3
            ∧ (createPhysicalDevice drv surface minUniformOffset).physicalDevice
                = VK_NULL_HANDLE) := by
  have hfail : (∀ d ∈ drv.physicalDevices, isDeviceSuitable drv d surface = false)
      → (createPhysicalDevice drv surface minUniformOffset).code = 3
        ∧ (createPhysicalDevice drv surface minUniformOffset).physicalDevice
            = VK_NULL_HANDLE := by
    intro hnone
    unfold createPhysicalDevice
    simp only [createPhysicalDeviceLoop_none drv surface _ _ hnone]
    split <;> simp
  have hok : (∃ d ∈ drv.physicalDevices, isDeviceSuitable drv d surface = true)
      → (createPhysicalDevice drv surface minUniformOffset).code = 0
        ∧ ∃ before after,
            drv.physicalDevices
                = before ++ (createPhysicalDevice drv surface minUniformOffset).physicalDevice
                    :: after
              ∧ (∀ d ∈ before, isDeviceSuitable drv d surface = false)
              ∧ isDeviceSuitable drv
                  (createPhysicalDevice drv surface minUniformOffset).physicalDevice surface
                  = true
              ∧ (createPhysicalDevice drv surface minUniformOffset).minUniformOffset
                  = (drv.properties
                      (createPhysicalDevice drv surface minUniformOffset).physicalDevice
                    ).limits.minUniformBufferOffsetAlignment := by
    intro hsome
    obtain ⟨before, after, hsplit, hbefore, hsel⟩ :=
      createPhysicalDeviceLoop_first drv surface drv.physicalDevices VK_NULL_HANDLE hsome
    have hmemOf : ∀ x, drv.physicalDevices = before ++ x :: after
        → x ∈ drv.physicalDevices := by
      intro x hx
      rw [hx]
      simp
    have hmem : createPhysicalDeviceLoop drv surface drv.physicalDevices VK_NULL_HANDLE
        ∈ drv.physicalDevices := hmemOf _ hsplit
    have hnonnull := hhandles _ hmem
    have hlen : ¬ drv.physicalDevices.length = 0 := by
      intro h0
      rw [List.length_eq_zero.mp h0] at hmem
      exact absurd hmem (List.not_mem_nil _)
    have hval : createPhysicalDevice drv surface minUniformOffset
        = { code := 0,
            physicalDevice :=
              createPhysicalDeviceLoop drv surface drv.physicalDevices VK_NULL_HANDLE,
            minUniformOffset :=
              (drv.properties
                (createPhysicalDeviceLoop drv surface drv.physicalDevices VK_NULL_HANDLE)
              ).limits.minUniformBufferOffsetAlignment } := by
      unfold createPhysicalDevice
      simp only [hlen, if_false, hnonnull]
    rw [hval]
    exact ⟨rfl, before, after, hsplit, hbefore, hsel, rfl⟩
  refine ⟨⟨?_, fun h => (hok h).1⟩, fun h => (hok h).2, ?_, hfail⟩
  · intro hcode
    by_contra hnone
    have hall : ∀ d ∈ drv.physicalDevices, isDeviceSuitable drv d surface = false := by
      intro d hd
      cases hs : isDeviceSuitable drv d surface
      · rfl
      · exact absurd ⟨d, hd, hs⟩ hnone
    rw [(hfail hall).1] at hcode
    exact absurd hcode (by decide)
  · intro hnil
    apply hfail
    intro d hd
    rw [hnil] at hd
    exact absurd hd (List.not_mem_nil d)

theorem createPhysicalDevice_first_suitable_witness :
    (∀ d ∈ driverThreeDevices.physicalDevices, d ≠ VK_NULL_HANDLE)
      ∧ (createPhysicalDevice driverThreeDevices 1 0).code = 0
      ∧ createPhysicalDevice driverThreeDevices 1 0
          = { code := 0, physicalDevice := 5, minUniformOffset := 64 }
      ∧ createPhysicalDevice driverNoDevice 1 0
          = { code := 3, physicalDevice := VK_NULL_HANDLE, minUniformOffset := 0 }
      ∧ createPhysicalDevice driverUnsuitable 1 0
          = { code := 3, physicalDevice := VK_NULL_HANDLE, minUniformOffset := 0 } :=
  ⟨by decide,
   (createPhysicalDevice_first_suitable driverThreeDevices 1 0 (by decide)).1.mpr
     ⟨5, by decide, by decide⟩,
   by decide, by decide, by decide⟩

/-! ### Layout transitions (C9, C10) -/

/-- C9: for each of the three supported layout pairs, `transitionImageLayout` logs no
error and records exactly one barrier, carrying the masks and stages of the table:
undefined to transfer-dst has source access 0, destination access TRANSFER_WRITE and
stages TOP_OF_PIPE to TRANSFER; transfer-dst to shader-read-only has source access
TRANSFER_WRITE, destination access SHADER_READ and stages TRANSFER to FRAGMENT_SHADER;
undefined to depth-stencil-attachment has source access 0, destination access
DEPTH_STENCIL_ATTACHMENT_READ|WRITE and stages TOP_OF_PIPE to EARLY_FRAGMENT_TESTS. The
old and new layout of the barrier are the arguments. -/
theorem transitionImageLayout_table (image : VkImage) (format : VkFormat) (cube : Bool)
    (mipCount : Nat) :
    (∃ call,
        (transitionImageLayout image format VK_IMAGE_LAYOUT_UNDEFINED
            VK_IMAGE_LAYOUT_TRANSFER_DST_OPTIMAL cube mipCount)
          = { errors := [], recorded := [call], submitted := true }
        ∧ call.barrier.srcAccessMask = 0
        ∧ call.barrier.dstAccessMask = VK_ACCESS_TRANSFER_WRITE_BIT
        ∧ call.srcStageMask = some VK_PIPELINE_STAGE_TOP_OF_PIPE_BIT
        ∧ call.dstStageMask = some VK_PIPELINE_STAGE_TRANSFER_BIT
        ∧ call.barrier.oldLayout = VK_IMAGE_LAYOUT_UNDEFINED
        ∧ call.barrier.newLayout = VK_IMAGE_LAYOUT_TRANSFER_DST_OPTIMAL)
      ∧ (∃ call,
        (transitionImageLayout image format VK_IMAGE_LAYOUT_TRANSFER_DST_OPTIMAL
            VK_IMAGE_LAYOUT_SHADER_READ_ONLY_OPTIMAL cube mipCount)
          = { errors := [], recorded := [call], submitted := true }
        ∧ call.barrier.srcAccessMask = VK_ACCESS_TRANSFER_WRITE_BIT
        ∧ call.barrier.dstAccessMask = VK_ACCESS_SHADER_READ_BIT
        ∧ call.srcStageMask = some VK_PIPELINE_STAGE_TRANSFER_BIT
        ∧ call.dstStageMask = some VK_PIPELINE_STAGE_FRAGMENT_SHADER_BIT
        ∧ call.barrier.oldLayout = VK_IMAGE_LAYOUT_TRANSFER_DST_OPTIMAL
        ∧ call.barrier.newLayout = VK_IMAGE_LAYOUT_SHADER_READ_ONLY_OPTIMAL)
      ∧ (∃ call,
        (transitionImageLayout image format VK_IMAGE_LAYOUT_UNDEFINED
            VK_IMAGE_LAYOUT_DEPTH_STENCIL_ATTACHMENT_OPTIMAL cube mipCount)
          = { errors := [], recorded := [call], submitted := true }
        ∧ call.barrier.srcAccessMask = 0
        ∧ call.barrier.dstAccessMask
            = VK_ACCESS_DEPTH_STENCIL_ATTACHMENT_READ_BIT
                ||| VK_ACCESS_DEPTH_STENCIL_ATTACHMENT_WRITE_BIT
        ∧ call.srcStageMask = some VK_PIPELINE_STAGE_TOP_OF_PIPE_BIT
        ∧ call.dstStageMask = some VK_PIPELINE_STAGE_EARLY_FRAGMENT_TESTS_BIT
        ∧ call.barrier.oldLayout = VK_IMAGE_LAYOUT_UNDEFINED
        ∧ call.barrier.newLayout = VK_IMAGE_LAYOUT_DEPTH_STENCIL_ATTACHMENT_OPTIMAL) :=
  ⟨⟨_, rfl, rfl, rfl, rfl, rfl, rfl, rfl⟩,
   ⟨_, rfl, rfl, rfl, rfl, rfl, rfl, rfl⟩,
   ⟨_, rfl, rfl, rfl, rfl, rfl, rfl, rfl⟩⟩

/-- C10, as the code has it: for the pair shader-read-only to transfer-dst, which is
outside the table, `transitionImageLayout` logs the error line and still records one
barrier, with both access masks zero and both stage masks unassigned, and submits the
command buffer. -/
theorem transitionImageLayout_unsupported_still_records :
    transitionImageLayout 1 VK_FORMAT_B8G8R8A8_UNORM VK_IMAGE_LAYOUT_SHADER_READ_ONLY_OPTIMAL
        VK_IMAGE_LAYOUT_TRANSFER_DST_OPTIMAL false 1
      = { errors := ["Unsupported layout transition."],
          recorded :=
            [{ srcStageMask := none,
               dstStageMask := none,
               barrier :=
                 { sType := VK_STRUCTURE_TYPE_IMAGE_MEMORY_BARRIER,
                   srcAccessMask := 0,
                   dstAccessMask := 0,
                   oldLayout := VK_IMAGE_LAYOUT_SHADER_READ_ONLY_OPTIMAL,
                   newLayout := VK_IMAGE_LAYOUT_TRANSFER_DST_OPTIMAL,
                   srcQueueFamilyIndex := VK_QUEUE_FAMILY_IGNORED,
                   dstQueueFamilyIndex := VK_QUEUE_FAMILY_IGNORED,
                   image := 1,
                   subresourceRange :=
                     { aspectMask := VK_IMAGE_ASPECT_COLOR_BIT, baseMipLevel := 0,
                       levelCount := 1, baseArrayLayer := 0, layerCount := 1 } } }],
          submitted := true } := by
  decide

/-! ### Failure of the memory type lookup (C11) -/

theorem findMemoryTypeLoop_no_match (typeFilter : Nat) (properties : VkMemoryPropertyFlags)
    (memoryTypes : List VkMemoryType) (i : Nat)
    (hnone : ∀ k, memoryTypeMatches (typeFilter >>> i) properties memoryTypes k = false) :
    findMemoryTypeLoop typeFilter properties memoryTypes i = 0 := by
  induction memoryTypes generalizing i with
  | nil => rfl
  | cons memoryType rest ih =>
    unfold findMemoryTypeLoop
    have hzero := hnone 0
    have hhead : ¬ ((typeFilter &&& (1 <<< i)) ≠ 0
        ∧ (memoryType.propertyFlags &&& properties) = properties) := by
      rintro ⟨hbit, hprops⟩
      have hb := (and_one_shiftLeft_ne_zero typeFilter i).mp hbit
      simp [memoryTypeMatches, Nat.testBit_shiftRight, hb, hprops] at hzero
    rw [if_neg hhead]
    apply ih
    intro k
    rw [← memoryTypeMatches_cons_succ typeFilter i properties memoryType rest k]
    exact hnone (k + 1)

theorem findMemoryType_no_match (drv : Driver) (typeFilter : Nat)
    (properties : VkMemoryPropertyFlags) (physicalDevice : VkPhysicalDevice)
    (hnone : ∀ i, memoryTypeMatches typeFilter properties
      (drv.memoryProperties physicalDevice).memoryTypes i = false) :
    findMemoryType drv typeFilter properties physicalDevice = 0 := by
  unfold findMemoryType
  apply findMemoryTypeLoop_no_match
  intro k
  have h0 : typeFilter >>> 0 = typeFilter := by simp
  rw [h0]
  exact hnone k

/-- C11, as the code has it: with memory types `[1, 2, 3]` and filter bits 0 and 2, a
request for property flag 4 matches no index and `findMemoryType` returns 0; a request
for property flag 1 matches index 0 and `findMemoryType` returns 0 as well. The result
of the failed lookup is the result of a successful one. -/
theorem findMemoryType_failure_returns_valid_index :
    (∀ i, memoryTypeMatches 5 4 ((driverWith capsFixedExtent).memoryProperties 1).memoryTypes i
        = false)
      ∧ findMemoryType (driverWith capsFixedExtent) 5 4 1 = 0
      ∧ memoryTypeMatches 5 1 ((driverWith capsFixedExtent).memoryProperties 1).memoryTypes 0
          = true
      ∧ findMemoryType (driverWith capsFixedExtent) 5 1 1 = 0 := by
  refine ⟨?_, by decide, by decide, by decide⟩
  intro i
  by_cases hi : i < 3
  · interval_cases i <;> decide
  · have hnone : ((driverWith capsFixedExtent).memoryProperties 1).memoryTypes[i]? = none :=
      List.getElem?_eq_none (by simp [driverWith]; omega)
    simp [memoryTypeMatches, hnone]

/-! ### Image view creation (C13) -/

/-- C13, as the code has it: when the driver call fails, `createImageView` logs one error
line and returns the never-initialised local, whatever it holds. With the indeterminate
value 7 the failed call returns 7, the very handle a successful call returns when the
driver creates view 7. -/
theorem createImageView_failure_returns_indeterminate :
    createImageView (fun _ => none) 7 1 VK_FORMAT_B8G8R8A8_UNORM VK_IMAGE_ASPECT_COLOR_BIT false 1
        = { errors := ["Unable to create image view."], imageView := 7 }
      ∧ createImageView (fun _ => some 7) 0 1 VK_FORMAT_B8G8R8A8_UNORM VK_IMAGE_ASPECT_COLOR_BIT
          false 1
        = { errors := [], imageView := 7 }
      ∧ (createImageView (fun _ => none) 7 1 VK_FORMAT_B8G8R8A8_UNORM VK_IMAGE_ASPECT_COLOR_BIT
          false 1).imageView
        = (createImageView (fun _ => some 7) 0 1 VK_FORMAT_B8G8R8A8_UNORM
            VK_IMAGE_ASPECT_COLOR_BIT false 1).imageView := by
  decide

/-! ### Aspect mask of the barrier (C16) -/

/-- C16, as the code has it: for the transition undefined to transfer-dst the recorded
barrier carries the COLOR aspect, neither DEPTH nor DEPTH|STENCIL, both for a format
without a stencil component and for D24_UNORM_S8_UINT, which has one. -/
theorem transitionImageLayout_color_aspect_for_transfer :
    (transitionImageLayout 1 VK_FORMAT_B8G8R8A8_UNORM VK_IMAGE_LAYOUT_UNDEFINED
        VK_IMAGE_LAYOUT_TRANSFER_DST_OPTIMAL false 1).recorded.map
          (fun call => call.barrier.subresourceRange.aspectMask)
        = [VK_IMAGE_ASPECT_COLOR_BIT]
      ∧ hasStencilComponent VK_FORMAT_B8G8R8A8_UNORM = false
      ∧ VK_IMAGE_ASPECT_COLOR_BIT ≠ VK_IMAGE_ASPECT_DEPTH_BIT
      ∧ (transitionImageLayout 1 VK_FORMAT_D24_UNORM_S8_UINT VK_IMAGE_LAYOUT_UNDEFINED
          VK_IMAGE_LAYOUT_TRANSFER_DST_OPTIMAL false 1).recorded.map
            (fun call => call.barrier.subresourceRange.aspectMask)
          = [VK_IMAGE_ASPECT_COLOR_BIT]
      ∧ hasStencilComponent VK_FORMAT_D24_UNORM_S8_UINT = true
      ∧ VK_IMAGE_ASPECT_COLOR_BIT ≠ VK_IMAGE_ASPECT_DEPTH_BIT ||| VK_IMAGE_ASPECT_STENCIL_BIT := by
  decide

theorem transitionImageLayout_recorded (image : VkImage) (format : VkFormat)
    (oldLayout newLayout : VkImageLayout) (cube : Bool) (mipCount : Nat) :
    ∃ call,
      (transitionImageLayout image format oldLayout newLayout cube mipCount).recorded = [call]
        ∧ call.barrier.subresourceRange.aspectMask
          = (if newLayout = VK_IMAGE_LAYOUT_DEPTH_STENCIL_ATTACHMENT_OPTIMAL then
               if hasStencilComponent format then
                 VK_IMAGE_ASPECT_DEPTH_BIT ||| VK_IMAGE_ASPECT_STENCIL_BIT
               else VK_IMAGE_ASPECT_DEPTH_BIT
             else VK_IMAGE_ASPECT_COLOR_BIT) := by
  unfold transitionImageLayout
  refine ⟨_, rfl, ?_⟩
  simp only []
  split_ifs <;> rfl

/-- C16, amended: every call of `transitionImageLayout` records one barrier. When the new
layout is depth-stencil-attachment its aspect mask is DEPTH|STENCIL if the format has a
stencil component and DEPTH otherwise; for every other new layout the aspect mask is
COLOR. `hasStencilComponent` is true exactly for D32_SFLOAT_S8_UINT and
D24_UNORM_S8_UINT. -/
theorem transitionImageLayout_aspect (image : VkImage) (format : VkFormat)
    (oldLayout newLayout : VkImageLayout) (cube : Bool) (mipCount : Nat) :
    (∃ call,
      (transitionImageLayout image format oldLayout newLayout cube mipCount).recorded = [call]
        ∧ call.barrier.subresourceRange.aspectMask
          = (if newLayout = VK_IMAGE_LAYOUT_DEPTH_STENCIL_ATTACHMENT_OPTIMAL then
               if hasStencilComponent format then
                 VK_IMAGE_ASPECT_DEPTH_BIT ||| VK_IMAGE_ASPECT_STENCIL_BIT
               else VK_IMAGE_ASPECT_DEPTH_BIT
             else VK_IMAGE_ASPECT_COLOR_BIT))
      ∧ (hasStencilComponent format = true
          ↔ format = VK_FORMAT_D32_SFLOAT_S8_UINT ∨ format = VK_FORMAT_D24_UNORM_S8_UINT) := by
  refine ⟨transitionImageLayout_recorded image format oldLayout newLayout cube mipCount, ?_⟩
  simp [hasStencilComponent]

/-! ### Swapchain creation (C12, C15) -/

theorem createSwapchain_createInfo
    (vkCreateSwapchainKHR : VkSwapchainCreateInfoKHR → Option VkSwapchainKHR)
    (parameters : SwapchainParameters) (surface : VkSurfaceKHR) (queues : ActiveQueues)
    (swapchain oldSwapchain : VkSwapchainKHR) :
    (createSwapchain vkCreateSwapchainKHR parameters surface queues swapchain
        oldSwapchain).createInfo
      = { sType := VK_STRUCTURE_TYPE_SWAPCHAIN_CREATE_INFO_KHR,
          surface := surface,
          minImageCount :=
            if 0 < parameters.support.capabilities.maxImageCount
                ∧ parameters.support.capabilities.maxImageCount < parameters.count then
              parameters.support.capabilities.maxImageCount
            else parameters.count,
          imageFormat := parameters.surface.format,
          imageColorSpace := parameters.surface.colorSpace,
          imageExtent := parameters.extent,
          imageArrayLayers := 1,
          imageUsage := VK_IMAGE_USAGE_COLOR_ATTACHMENT_BIT,
          imageSharingMode :=
            if queues.graphicsQueue ≠ queues.presentQueue then VK_SHARING_MODE_CONCURRENT
            else VK_SHARING_MODE_EXCLUSIVE,
          queueFamilyIndexCount := if queues.graphicsQueue ≠ queues.presentQueue then 2 else 0,
          pQueueFamilyIndices :=
            if queues.graphicsQueue ≠ queues.presentQueue then
              some (queueIndexToUInt32 queues.graphicsQueue,
                    queueIndexToUInt32 queues.presentQueue)
            else none,
          preTransform := parameters.support.capabilities.currentTransform,
          compositeAlpha := VK_COMPOSITE_ALPHA_OPAQUE_BIT_KHR,
          presentMode := parameters.mode,
          clipped := VK_TRUE,
          oldSwapchain := oldSwapchain } := by
  unfold createSwapchain
  simp only [gt_iff_lt]
  by_cases hq : queues.graphicsQueue = queues.presentQueue
  · by_cases hc : 0 < parameters.support.capabilities.maxImageCount
        ∧ parameters.support.capabilities.maxImageCount < parameters.count
    · split <;> simp [hq, hc]
    · split <;> simp [hq, hc]
  · by_cases hc : 0 < parameters.support.capabilities.maxImageCount
        ∧ parameters.support.capabilities.maxImageCount < parameters.count
    · split <;> simp [hq, hc]
    · split <;> simp [hq, hc]

theorem createSwapchain_parameters_count
    (vkCreateSwapchainKHR : VkSwapchainCreateInfoKHR → Option VkSwapchainKHR)
    (parameters : SwapchainParameters) (surface : VkSurfaceKHR) (queues : ActiveQueues)
    (swapchain oldSwapchain : VkSwapchainKHR) :
    (createSwapchain vkCreateSwapchainKHR parameters surface queues swapchain
        oldSwapchain).parameters.count
      = if 0 < parameters.support.capabilities.maxImageCount
            ∧ parameters.support.capabilities.maxImageCount < parameters.count then
          parameters.support.capabilities.maxImageCount
        else parameters.count := by
  unfold createSwapchain
  simp only [gt_iff_lt]
  by_cases hc : 0 < parameters.support.capabilities.maxImageCount
      ∧ parameters.support.capabilities.maxImageCount < parameters.count
  · split <;> simp [hc]
  · split <;> simp [hc]

/-- C12: for every `ActiveQueues` passed to `createSwapchain`, the create-info has sharing
mode CONCURRENT, `queueFamilyIndexCount` 2 and the index pair (graphicsQueue,
presentQueue) when the two indices differ, and sharing mode EXCLUSIVE,
`queueFamilyIndexCount` 0 and no index array when they are equal. In both cases
`oldSwapchain` is passed through, `compositeAlpha` is OPAQUE, `clipped` is true and
`preTransform` is `capabilities.currentTransform`. -/
theorem createSwapchain_sharing
    (vkCreateSwapchainKHR : VkSwapchainCreateInfoKHR → Option VkSwapchainKHR)
    (parameters : SwapchainParameters) (surface : VkSurfaceKHR) (queues : ActiveQueues)
    (swapchain oldSwapchain : VkSwapchainKHR) :
    (queues.graphicsQueue ≠ queues.presentQueue
        → (createSwapchain vkCreateSwapchainKHR parameters surface queues swapchain
        oldSwapchain).createInfo.imageSharingMode = VK_SHARING_MODE_CONCURRENT
          ∧ (createSwapchain vkCreateSwapchainKHR parameters surface queues swapchain
        oldSwapchain).createInfo.queueFamilyIndexCount = 2
          ∧ (createSwapchain vkCreateSwapchainKHR parameters surface queues swapchain
        oldSwapchain).createInfo.pQueueFamilyIndices
              = some (queueIndexToUInt32 queues.graphicsQueue,
                      queueIndexToUInt32 queues.presentQueue))
      ∧ (∀ g p, queues.graphicsQueue = some g → queues.presentQueue = some p → g ≠ p
          → g < 4294967296 → p < 4294967296
          → (createSwapchain vkCreateSwapchainKHR parameters surface queues swapchain
        oldSwapchain).createInfo.pQueueFamilyIndices = some (some g, some p))
      ∧ (queues.graphicsQueue = queues.presentQueue
          → (createSwapchain vkCreateSwapchainKHR parameters surface queues swapchain
        oldSwapchain).createInfo.imageSharingMode = VK_SHARING_MODE_EXCLUSIVE
            ∧ (createSwapchain vkCreateSwapchainKHR parameters surface queues swapchain
        oldSwapchain).createInfo.queueFamilyIndexCount = 0
            ∧ (createSwapchain vkCreateSwapchainKHR parameters surface queues swapchain
        oldSwapchain).createInfo.pQueueFamilyIndices = none)
      ∧ (createSwapchain vkCreateSwapchainKHR parameters surface queues swapchain
        oldSwapchain).createInfo.oldSwapchain = oldSwapchain
      ∧ (createSwapchain vkCreateSwapchainKHR parameters surface queues swapchain
        oldSwapchain).createInfo.compositeAlpha = VK_COMPOSITE_ALPHA_OPAQUE_BIT_KHR
      ∧ (createSwapchain vkCreateSwapchainKHR parameters surface queues swapchain
        oldSwapchain).createInfo.clipped = VK_TRUE
      ∧ (createSwapchain vkCreateSwapchainKHR parameters surface queues swapchain
        oldSwapchain).createInfo.preTransform = parameters.support.capabilities.currentTransform := by
  rw [createSwapchain_createInfo]
  refine ⟨?_, ?_, ?_, rfl, rfl, rfl, rfl⟩
  · intro hne
    simp only [if_pos hne]
    exact ⟨trivial, trivial, trivial⟩
  · intro g p hg hp hne hglt hplt
    have hqne : queues.graphicsQueue ≠ queues.presentQueue := by
      rw [hg, hp]
      intro h
      exact hne (Option.some.inj h)
    simp only [if_pos hqne]
    simp only [hg, hp, queueIndexToUInt32, wrapUInt32, Option.map_some',
      Nat.mod_eq_of_lt hglt, Nat.mod_eq_of_lt hplt]
  · intro heq
    have hnn : ¬ (queues.graphicsQueue ≠ queues.presentQueue) := fun h => h heq
    simp only [if_neg hnn]
    exact ⟨trivial, trivial, trivial⟩

theorem createSwapchain_sharing_witness :
    (createSwapchain (fun _ => some 9) parametersStaleCount 1
        { graphicsQueue := some 0, presentQueue := some 2 } 0 5).createInfo.imageSharingMode
        = VK_SHARING_MODE_CONCURRENT
      ∧ (createSwapchain (fun _ => some 9) parametersStaleCount 1
          { graphicsQueue := some 0, presentQueue := some 2 } 0 5).createInfo.pQueueFamilyIndices
        = some (some 0, some 2)
      ∧ (createSwapchain (fun _ => some 9) parametersStaleCount 1
          { graphicsQueue := some 1, presentQueue := some 1 } 0 5).createInfo.imageSharingMode
        = VK_SHARING_MODE_EXCLUSIVE :=
  ⟨((createSwapchain_sharing (fun _ => some 9) parametersStaleCount 1
      { graphicsQueue := some 0, presentQueue := some 2 } 0 5).1 (by decide)).1,
   (createSwapchain_sharing (fun _ => some 9) parametersStaleCount 1
      { graphicsQueue := some 0, presentQueue := some 2 } 0 5).2.1 0 2 rfl rfl (by decide)
      (by decide) (by decide),
   by decide⟩

/-- C15: for every `SwapchainParameters` passed to `createSwapchain`, the image count
requested from the driver (create-info `minImageCount`, also written back to
`parameters.count`) is `maxImageCount` when `maxImageCount > 0` and the incoming count
exceeds it, and the incoming count otherwise. For the parameters produced by
`generateSwapchainParameters` the requested count is therefore
`min(minImageCount + 1, maxImageCount)` when `maxImageCount > 0` and `minImageCount + 1`
when `maxImageCount == 0`, the sum being the 32-bit sum of the source (the plain sum for
`minImageCount < 0xFFFFFFFF`). -/
theorem createSwapchain_image_count
    (vkCreateSwapchainKHR : VkSwapchainCreateInfoKHR → Option VkSwapchainKHR)
    (parameters : SwapchainParameters) (surface : VkSurfaceKHR) (queues : ActiveQueues)
    (swapchain oldSwapchain : VkSwapchainKHR)
    (drv : Driver) (physicalDevice : VkPhysicalDevice) (width height : Int)
    (hformats : drv.surfaceFormats physicalDevice surface ≠ []) :
    (createSwapchain vkCreateSwapchainKHR parameters surface queues swapchain
        oldSwapchain).createInfo.minImageCount
        = (if 0 < parameters.support.capabilities.maxImageCount
              ∧ parameters.support.capabilities.maxImageCount < parameters.count then
            parameters.support.capabilities.maxImageCount
          else parameters.count)
      ∧ (createSwapchain vkCreateSwapchainKHR parameters surface queues swapchain
        oldSwapchain).parameters.count = (createSwapchain vkCreateSwapchainKHR parameters surface queues swapchain
        oldSwapchain).createInfo.minImageCount
      ∧ ∃ generated,
          generateSwapchainParameters drv physicalDevice surface width height = some generated
          ∧ (createSwapchain vkCreateSwapchainKHR generated surface queues swapchain
              oldSwapchain).createInfo.minImageCount
            = (if 0 < (drv.surfaceCapabilities physicalDevice surface).maxImageCount then
                min (wrapUInt32 ((drv.surfaceCapabilities physicalDevice surface).minImageCount + 1))
                  (drv.surfaceCapabilities physicalDevice surface).maxImageCount
              else
                wrapUInt32 ((drv.surfaceCapabilities physicalDevice surface).minImageCount + 1))
          ∧ ((drv.surfaceCapabilities physicalDevice surface).minImageCount < UINT32_MAX
              → 0 < (drv.surfaceCapabilities physicalDevice surface).maxImageCount
              → (createSwapchain vkCreateSwapchainKHR generated surface queues swapchain
                  oldSwapchain).createInfo.minImageCount
                = min ((drv.surfaceCapabilities physicalDevice surface).minImageCount + 1)
                    (drv.surfaceCapabilities physicalDevice surface).maxImageCount)
          ∧ ((drv.surfaceCapabilities physicalDevice surface).minImageCount < UINT32_MAX
              → (drv.surfaceCapabilities physicalDevice surface).maxImageCount = 0
              → (createSwapchain vkCreateSwapchainKHR generated surface queues swapchain
                  oldSwapchain).createInfo.minImageCount
                = (drv.surfaceCapabilities physicalDevice surface).minImageCount + 1) := by
  refine ⟨?_, ?_, ?_⟩
  · rw [createSwapchain_createInfo]
  · rw [createSwapchain_parameters_count, createSwapchain_createInfo]
  · obtain ⟨surfaceFormat, hformat⟩ :=
      chooseSwapSurfaceFormat_isSome (drv.surfaceFormats physicalDevice surface) hformats
    refine ⟨_, generateSwapchainParameters_eq drv physicalDevice surface width height
      surfaceFormat hformat, ?_, ?_, ?_⟩
    · rw [createSwapchain_createInfo]
      simp only [querySwapchainSupport]
      split_ifs <;> omega
    · intro hmin hmax
      rw [createSwapchain_createInfo]
      simp only [querySwapchainSupport, wrapUInt32, UINT32_MAX] at hmin ⊢
      split_ifs <;> omega
    · intro hmin hmax
      rw [createSwapchain_createInfo]
      simp only [querySwapchainSupport, wrapUInt32, UINT32_MAX] at hmin ⊢
      split_ifs <;> omega

theorem createSwapchain_image_count_witness :
    (driverWith capsTightCount).surfaceFormats 1 1 ≠ []
      ∧ (createSwapchain (fun _ => some 9) parametersStaleCount 1
          { graphicsQueue := some 0, presentQueue := some 0 } 0 0).createInfo.minImageCount = 3
      ∧ ∃ generated,
          generateSwapchainParameters (driverWith capsTightCount) 1 1 800 600 = some generated
          ∧ generated.count = 4
          ∧ (createSwapchain (fun _ => some 9) generated 1
              { graphicsQueue := some 0, presentQueue := some 0 } 0 0).createInfo.minImageCount
            = 3 := by
  obtain ⟨h1, _, generated, hgen, hcount, _, _⟩ :=
    createSwapchain_image_count (fun _ => some 9) parametersStaleCount 1
      { graphicsQueue := some 0, presentQueue := some 0 } 0 0
      (driverWith capsTightCount) 1 800 600 (by decide)
  refine ⟨by decide, by rw [h1]; decide, generated, hgen, ?_, ?_⟩
  · have hsome : generateSwapchainParameters (driverWith capsTightCount) 1 1 800 600
        = some { support := querySwapchainSupport (driverWith capsTightCount) 1 1,
                 extent := { width := 800, height := 600 },
                 surface := { format := 50, colorSpace := 0 },
                 mode := VK_PRESENT_MODE_FIFO_KHR,
                 count := 4 } := by decide
    rw [hsome] at hgen
    rw [← Option.some.inj hgen]
  · rw [hcount]
    decide

/-! ### Queue family selection (C14, C17) -/

theorem getGraphicsQueueFamilyIndexLoop_cons (drv : Driver) (device : VkPhysicalDevice)
    (surface : VkSurfaceKHR) (queueFamily : VkQueueFamilyProperties)
    (rest : List VkQueueFamilyProperties) (i : Nat) (queues : ActiveQueues) :
    getGraphicsQueueFamilyIndexLoop drv device surface (queueFamily :: rest) i queues
      = if (visitFamily drv device surface queueFamily i queues).isComplete then
          visitFamily drv device surface queueFamily i queues
        else
          getGraphicsQueueFamilyIndexLoop drv device surface rest (i + 1)
            (visitFamily drv device surface queueFamily i queues) := by
  have hvisit : visitFamily drv device surface queueFamily i queues
      = (if queueFamily.queueCount > 0 ∧ drv.surfaceSupport device i surface ≠ 0 then
          { (if queueFamily.queueCount > 0
                ∧ (queueFamily.queueFlags &&& VK_QUEUE_GRAPHICS_BIT) ≠ 0 then
              { queues with graphicsQueue := some i }
            else queues) with presentQueue := some i }
        else
          (if queueFamily.queueCount > 0
              ∧ (queueFamily.queueFlags &&& VK_QUEUE_GRAPHICS_BIT) ≠ 0 then
            { queues with graphicsQueue := some i }
          else queues)) := by
    unfold visitFamily familySupportsGraphics familySupportsPresent
    by_cases h1 : queueFamily.queueCount > 0
        ∧ (queueFamily.queueFlags &&& VK_QUEUE_GRAPHICS_BIT) ≠ 0
    · by_cases h2 : queueFamily.queueCount > 0 ∧ drv.surfaceSupport device i surface ≠ 0
      · simp only [decide_eq_true_eq, if_pos h1, if_pos h2]
      · simp only [decide_eq_true_eq, if_pos h1, if_neg h2]
    · by_cases h2 : queueFamily.queueCount > 0 ∧ drv.surfaceSupport device i surface ≠ 0
      · simp only [decide_eq_true_eq, if_neg h1, if_pos h2]
      · simp only [decide_eq_true_eq, if_neg h1, if_neg h2]
  rw [hvisit]
  rfl

theorem visitFamily_graphics (drv : Driver) (device : VkPhysicalDevice) (surface : VkSurfaceKHR)
    (queueFamily : VkQueueFamilyProperties) (i : Nat) (queues : ActiveQueues) (g : Nat)
    (h : (visitFamily drv device surface queueFamily i queues).graphicsQueue = some g) :
    (familySupportsGraphics queueFamily = true ∧ g = i) ∨ queues.graphicsQueue = some g := by
  unfold visitFamily at h
  by_cases hf : familySupportsGraphics queueFamily = true
  · left
    simp only [hf, if_true] at h
    exact ⟨hf, (Option.some.inj h).symm⟩
  · right
    simpa [hf] using h

theorem visitFamily_present (drv : Driver) (device : VkPhysicalDevice) (surface : VkSurfaceKHR)
    (queueFamily : VkQueueFamilyProperties) (i : Nat) (queues : ActiveQueues) (p : Nat)
    (h : (visitFamily drv device surface queueFamily i queues).presentQueue = some p) :
    (familySupportsPresent drv device surface i queueFamily = true ∧ p = i)
      ∨ queues.presentQueue = some p := by
  unfold visitFamily at h
  by_cases hf : familySupportsPresent drv device surface i queueFamily = true
  · left
    simp only [hf, if_true] at h
    exact ⟨hf, (Option.some.inj h).symm⟩
  · right
    simpa [hf] using h

theorem visitFamily_graphics_isSome (drv : Driver) (device : VkPhysicalDevice)
    (surface : VkSurfaceKHR) (queueFamily : VkQueueFamilyProperties) (i : Nat)
    (queues : ActiveQueues)
    (h : familySupportsGraphics queueFamily = true ∨ queues.graphicsQueue.isSome = true) :
    (visitFamily drv device surface queueFamily i queues).graphicsQueue.isSome = true := by
  unfold visitFamily
  by_cases hf : familySupportsGraphics queueFamily = true
  · simp [hf]
  · rcases h with h | h
    · exact absurd h hf
    · simpa [hf] using h

theorem visitFamily_present_isSome (drv : Driver) (device : VkPhysicalDevice)
    (surface : VkSurfaceKHR) (queueFamily : VkQueueFamilyProperties) (i : Nat)
    (queues : ActiveQueues)
    (h : familySupportsPresent drv device surface i queueFamily = true
      ∨ queues.presentQueue.isSome = true) :
    (visitFamily drv device surface queueFamily i queues).presentQueue.isSome = true := by
  unfold visitFamily
  by_cases hf : familySupportsPresent drv device surface i queueFamily = true
  · simp [hf]
  · rcases h with h | h
    · exact absurd h hf
    · simpa [hf] using h

theorem visitFamily_present_isSome_inv (drv : Driver) (device : VkPhysicalDevice)
    (surface : VkSurfaceKHR) (queueFamily : VkQueueFamilyProperties) (i : Nat)
    (queues : ActiveQueues)
    (h : (visitFamily drv device surface queueFamily i queues).presentQueue.isSome = true) :
    familySupportsPresent drv device surface i queueFamily = true
      ∨ queues.presentQueue.isSome = true := by
  unfold visitFamily at h
  by_cases hf : familySupportsPresent drv device surface i queueFamily = true
  · exact Or.inl hf
  · right
    simpa [hf] using h

theorem getGraphicsQueueFamilyIndexLoop_graphics_source (drv : Driver) (device : VkPhysicalDevice) (surface : VkSurfaceKHR)
    (rest : List VkQueueFamilyProperties) (i : Nat) (queues : ActiveQueues) (g : Nat)
    (h : (getGraphicsQueueFamilyIndexLoop drv device surface rest i queues).graphicsQueue = some g) :
    queues.graphicsQueue = some g
      ∨ ∃ (k : Nat) (f : VkQueueFamilyProperties), rest[k]? = some f ∧ familySupportsGraphics f = true ∧ g = i + k := by
  induction rest generalizing i queues with
  | nil => exact Or.inl h
  | cons queueFamily rest ih =>
    rw [getGraphicsQueueFamilyIndexLoop_cons] at h
    have hhead : (visitFamily drv device surface queueFamily i queues).graphicsQueue = some g
        → queues.graphicsQueue = some g
          ∨ ∃ (k : Nat) (f : VkQueueFamilyProperties), (queueFamily :: rest)[k]? = some f ∧ familySupportsGraphics f = true
              ∧ g = i + k := by
      intro hv
      rcases visitFamily_graphics drv device surface queueFamily i queues g hv with ⟨hf, hg⟩ | hq
      · exact Or.inr ⟨0, queueFamily, List.getElem?_cons_zero, hf, by omega⟩
      · exact Or.inl hq
    split at h
    · exact hhead h
    · rcases ih (i + 1) _ h with hv | ⟨k, f, hk, hf, hg⟩
      · exact hhead hv
      · exact Or.inr ⟨k + 1, f, by simpa using hk, hf, by omega⟩

theorem getGraphicsQueueFamilyIndexLoop_present_source (drv : Driver) (device : VkPhysicalDevice) (surface : VkSurfaceKHR)
    (rest : List VkQueueFamilyProperties) (i : Nat) (queues : ActiveQueues) (p : Nat)
    (h : (getGraphicsQueueFamilyIndexLoop drv device surface rest i queues).presentQueue = some p) :
    queues.presentQueue = some p
      ∨ ∃ (k : Nat) (f : VkQueueFamilyProperties), rest[k]? = some f
          ∧ familySupportsPresent drv device surface (i + k) f = true ∧ p = i + k := by
  induction rest generalizing i queues with
  | nil => exact Or.inl h
  | cons queueFamily rest ih =>
    rw [getGraphicsQueueFamilyIndexLoop_cons] at h
    have hhead : (visitFamily drv device surface queueFamily i queues).presentQueue = some p
        → queues.presentQueue = some p
          ∨ ∃ (k : Nat) (f : VkQueueFamilyProperties), (queueFamily :: rest)[k]? = some f
              ∧ familySupportsPresent drv device surface (i + k) f = true ∧ p = i + k := by
      intro hv
      rcases visitFamily_present drv device surface queueFamily i queues p hv with ⟨hf, hp⟩ | hq
      · exact Or.inr ⟨0, queueFamily, List.getElem?_cons_zero, hf, by omega⟩
      · exact Or.inl hq
    split at h
    · exact hhead h
    · rcases ih (i + 1) _ h with hv | ⟨k, f, hk, hf, hp⟩
      · exact hhead hv
      · refine Or.inr ⟨k + 1, f, by simpa using hk, ?_, by omega⟩
        have hidx : i + (k + 1) = i + 1 + k := by omega
        rw [hidx]
        exact hf

theorem getGraphicsQueueFamilyIndexLoop_graphics_isSome (drv : Driver) (device : VkPhysicalDevice) (surface : VkSurfaceKHR)
    (rest : List VkQueueFamilyProperties) (i : Nat) (queues : ActiveQueues)
    (h : queues.graphicsQueue.isSome = true
      ∨ ∃ (k : Nat) (f : VkQueueFamilyProperties), rest[k]? = some f ∧ familySupportsGraphics f = true) :
    (getGraphicsQueueFamilyIndexLoop drv device surface rest i queues).graphicsQueue.isSome = true := by
  induction rest generalizing i queues with
  | nil =>
    rcases h with h | ⟨k, f, hk, _⟩
    · exact h
    · simp at hk
  | cons queueFamily rest ih =>
    rw [getGraphicsQueueFamilyIndexLoop_cons]
    split
    · rename_i hcomplete
      simp only [ActiveQueues.isComplete, Bool.and_eq_true] at hcomplete
      exact hcomplete.1
    · apply ih
      rcases h with h | ⟨k, f, hk, hf⟩
      · exact Or.inl (visitFamily_graphics_isSome drv device surface queueFamily i queues
          (Or.inr h))
      · cases k with
        | zero =>
          have hfam : queueFamily = f := by simpa using hk
          exact Or.inl (visitFamily_graphics_isSome drv device surface queueFamily i queues
            (Or.inl (hfam ▸ hf)))
        | succ k => exact Or.inr ⟨k, f, by simpa using hk, hf⟩

theorem getGraphicsQueueFamilyIndexLoop_present_isSome (drv : Driver) (device : VkPhysicalDevice) (surface : VkSurfaceKHR)
    (rest : List VkQueueFamilyProperties) (i : Nat) (queues : ActiveQueues)
    (h : queues.presentQueue.isSome = true
      ∨ ∃ (k : Nat) (f : VkQueueFamilyProperties), rest[k]? = some f ∧ familySupportsPresent drv device surface (i + k) f = true) :
    (getGraphicsQueueFamilyIndexLoop drv device surface rest i queues).presentQueue.isSome = true := by
  induction rest generalizing i queues with
  | nil =>
    rcases h with h | ⟨k, f, hk, _⟩
    · exact h
    · simp at hk
  | cons queueFamily rest ih =>
    rw [getGraphicsQueueFamilyIndexLoop_cons]
    split
    · rename_i hcomplete
      simp only [ActiveQueues.isComplete, Bool.and_eq_true] at hcomplete
      exact hcomplete.2
    · apply ih
      rcases h with h | ⟨k, f, hk, hf⟩
      · exact Or.inl (visitFamily_present_isSome drv device surface queueFamily i queues
          (Or.inr h))
      · cases k with
        | zero =>
          have hfam : queueFamily = f := by simpa using hk
          exact Or.inl (visitFamily_present_isSome drv device surface queueFamily i queues
            (Or.inl (hfam ▸ hf)))
        | succ k =>
          refine Or.inr ⟨k, f, by simpa using hk, ?_⟩
          have hidx : i + 1 + k = i + (k + 1) := by omega
          rw [hidx]
          exact hf

theorem visitFamily_graphics_of_true (drv : Driver) (device : VkPhysicalDevice) (surface : VkSurfaceKHR)
    (queueFamily : VkQueueFamilyProperties) (i : Nat) (queues : ActiveQueues)
    (hf : familySupportsGraphics queueFamily = true) :
    (visitFamily drv device surface queueFamily i queues).graphicsQueue = some i := by
  unfold visitFamily
  simp only [hf, if_true]

theorem getGraphicsQueueFamilyIndexLoop_le_completion (drv : Driver) (device : VkPhysicalDevice) (surface : VkSurfaceKHR)
    (rest : List VkQueueFamilyProperties) (i : Nat) (queues : ActiveQueues) (c : Nat)
    (hg : queues.graphicsQueue.isSome = true
      ∨ ∃ (a : Nat) (f : VkQueueFamilyProperties),
          a ≤ c ∧ rest[a]? = some f ∧ familySupportsGraphics f = true)
    (hp : queues.presentQueue.isSome = true
      ∨ ∃ (b : Nat) (f : VkQueueFamilyProperties),
          b ≤ c ∧ rest[b]? = some f
            ∧ familySupportsPresent drv device surface (i + b) f = true) :
    (∀ g, (getGraphicsQueueFamilyIndexLoop drv device surface rest i queues).graphicsQueue = some g
        → queues.graphicsQueue = some g ∨ g ≤ i + c)
      ∧ (∀ p, (getGraphicsQueueFamilyIndexLoop drv device surface rest i queues).presentQueue = some p
        → queues.presentQueue = some p ∨ p ≤ i + c) := by
  induction rest generalizing i queues c with
  | nil => exact ⟨fun g h => Or.inl h, fun p h => Or.inl h⟩
  | cons queueFamily rest ih =>
    rw [getGraphicsQueueFamilyIndexLoop_cons]
    have hheadg : ∀ g, (visitFamily drv device surface queueFamily i queues).graphicsQueue
        = some g → queues.graphicsQueue = some g ∨ g ≤ i + c := by
      intro g hv
      rcases visitFamily_graphics drv device surface queueFamily i queues g hv with ⟨_, hgi⟩ | hq
      · exact Or.inr (by omega)
      · exact Or.inl hq
    have hheadp : ∀ p, (visitFamily drv device surface queueFamily i queues).presentQueue
        = some p → queues.presentQueue = some p ∨ p ≤ i + c := by
      intro p hv
      rcases visitFamily_present drv device surface queueFamily i queues p hv with ⟨_, hpi⟩ | hq
      · exact Or.inr (by omega)
      · exact Or.inl hq
    split
    · exact ⟨hheadg, hheadp⟩
    · rename_i hincomplete
      have hg2 : (visitFamily drv device surface queueFamily i queues).graphicsQueue.isSome
            = true
          ∨ ∃ (a : Nat) (f : VkQueueFamilyProperties),
              a + 1 ≤ c ∧ rest[a]? = some f ∧ familySupportsGraphics f = true := by
        rcases hg with h | ⟨a, f, hac, ha, hf⟩
        · exact Or.inl (visitFamily_graphics_isSome drv device surface queueFamily i queues
            (Or.inr h))
        · cases a with
          | zero =>
            have hfam : queueFamily = f := by simpa using ha
            exact Or.inl (visitFamily_graphics_isSome drv device surface queueFamily i queues
              (Or.inl (hfam ▸ hf)))
          | succ a => exact Or.inr ⟨a, f, hac, by simpa using ha, hf⟩
      have hp2 : (visitFamily drv device surface queueFamily i queues).presentQueue.isSome
            = true
          ∨ ∃ (b : Nat) (f : VkQueueFamilyProperties),
              b + 1 ≤ c ∧ rest[b]? = some f
                ∧ familySupportsPresent drv device surface (i + 1 + b) f = true := by
        rcases hp with h | ⟨b, f, hbc, hb, hf⟩
        · exact Or.inl (visitFamily_present_isSome drv device surface queueFamily i queues
            (Or.inr h))
        · cases b with
          | zero =>
            have hfam : queueFamily = f := by simpa using hb
            exact Or.inl (visitFamily_present_isSome drv device surface queueFamily i queues
              (Or.inl (hfam ▸ hf)))
          | succ b =>
            refine Or.inr ⟨b, f, hbc, by simpa using hb, ?_⟩
            have hidx : i + 1 + b = i + (b + 1) := by omega
            rw [hidx]
            exact hf
      cases c with
      | zero =>
        exfalso
        apply hincomplete
        have h1 : (visitFamily drv device surface queueFamily i queues).graphicsQueue.isSome
            = true := by
          rcases hg2 with h | ⟨a, f, hac, _, _⟩
          · exact h
          · omega
        have h2 : (visitFamily drv device surface queueFamily i queues).presentQueue.isSome
            = true := by
          rcases hp2 with h | ⟨b, f, hbc, _, _⟩
          · exact h
          · omega
        simp only [ActiveQueues.isComplete, h1, h2, Bool.and_self]
      | succ c =>
        have hg3 : (visitFamily drv device surface queueFamily i queues).graphicsQueue.isSome
              = true
            ∨ ∃ (a : Nat) (f : VkQueueFamilyProperties),
                a ≤ c ∧ rest[a]? = some f ∧ familySupportsGraphics f = true := by
          rcases hg2 with h | ⟨a, f, hac, ha, hf⟩
          · exact Or.inl h
          · exact Or.inr ⟨a, f, by omega, ha, hf⟩
        have hp3 : (visitFamily drv device surface queueFamily i queues).presentQueue.isSome
              = true
            ∨ ∃ (b : Nat) (f : VkQueueFamilyProperties),
                b ≤ c ∧ rest[b]? = some f
                  ∧ familySupportsPresent drv device surface (i + 1 + b) f = true := by
          rcases hp2 with h | ⟨b, f, hbc, hb, hf⟩
          · exact Or.inl h
          · exact Or.inr ⟨b, f, by omega, hb, hf⟩
        obtain ⟨ihg, ihp⟩ := ih (i + 1) _ c hg3 hp3
        refine ⟨fun g h => ?_, fun p h => ?_⟩
        · rcases ihg g h with hv | hle
          · exact hheadg g hv
          · exact Or.inr (by omega)
        · rcases ihp p h with hv | hle
          · exact hheadp p hv
          · exact Or.inr (by omega)

theorem getGraphicsQueueFamilyIndexLoop_graphics_last (drv : Driver) (device : VkPhysicalDevice) (surface : VkSurfaceKHR)
    (rest : List VkQueueFamilyProperties) (i : Nat) (queues : ActiveQueues) (g j : Nat)
    (f : VkQueueFamilyProperties)
    (h : (getGraphicsQueueFamilyIndexLoop drv device surface rest i queues).graphicsQueue = some g)
    (hj : rest[j]? = some f) (hf : familySupportsGraphics f = true) :
    i + j ≤ g ∨ queues.presentQueue.isSome = true
      ∨ ∃ (b : Nat) (fb : VkQueueFamilyProperties),
          b < j ∧ rest[b]? = some fb
            ∧ familySupportsPresent drv device surface (i + b) fb = true := by
  induction rest generalizing i queues j with
  | nil => simp at hj
  | cons queueFamily rest ih =>
    rw [getGraphicsQueueFamilyIndexLoop_cons] at h
    have hpresent : (visitFamily drv device surface queueFamily i queues).presentQueue.isSome
          = true
        → ∀ j, queues.presentQueue.isSome = true
          ∨ ∃ (b : Nat) (fb : VkQueueFamilyProperties),
              b < j + 1 ∧ (queueFamily :: rest)[b]? = some fb
                ∧ familySupportsPresent drv device surface (i + b) fb = true := by
      intro hv j
      rcases visitFamily_present_isSome_inv drv device surface queueFamily i queues hv
        with hfam | hq
      · exact Or.inr ⟨0, queueFamily, by omega, List.getElem?_cons_zero, hfam⟩
      · exact Or.inl hq
    split at h
    · rename_i hcomplete
      cases j with
      | zero =>
        have hfam : queueFamily = f := by simpa using hj
        have hv := visitFamily_graphics_of_true drv device surface queueFamily i queues
          (hfam ▸ hf)
        rw [hv] at h
        exact Or.inl (by have := Option.some.inj h; omega)
      | succ j =>
        simp only [ActiveQueues.isComplete, Bool.and_eq_true] at hcomplete
        exact Or.inr (hpresent hcomplete.2 j)
    · cases j with
      | zero =>
        have hfam : queueFamily = f := by simpa using hj
        have hv := visitFamily_graphics_of_true drv device surface queueFamily i queues
          (hfam ▸ hf)
        rcases getGraphicsQueueFamilyIndexLoop_graphics_source drv device surface rest (i + 1)
          _ g h with hsrc | ⟨k, _, _, _, hgk⟩
        · rw [hv] at hsrc
          exact Or.inl (by have := Option.some.inj hsrc; omega)
        · exact Or.inl (by omega)
      | succ j =>
        rcases ih (i + 1) _ j h (by simpa using hj) with hle | hv | ⟨b, fb, hbj, hb, hfb⟩
        · exact Or.inl (by omega)
        · exact Or.inr (hpresent hv j)
        · refine Or.inr (Or.inr ⟨b + 1, fb, by omega, by simpa using hb, ?_⟩)
          have hidx : i + (b + 1) = i + 1 + b := by omega
          rw [hidx]
          exact hfb

theorem graphicsAt_iff (drv : Driver) (device : VkPhysicalDevice) (a : Nat) :
    graphicsAt drv device a = true
      ↔ ∃ f, (drv.queueFamilyProperties device)[a]? = some f
          ∧ familySupportsGraphics f = true := by
  unfold graphicsAt
  cases h : (drv.queueFamilyProperties device)[a]? with
  | none => simp
  | some f => simp

theorem presentAt_iff (drv : Driver) (device : VkPhysicalDevice) (surface : VkSurfaceKHR) (b : Nat) :
    presentAt drv device surface b = true
      ↔ ∃ f, (drv.queueFamilyProperties device)[b]? = some f
          ∧ familySupportsPresent drv device surface b f = true := by
  unfold presentAt
  cases h : (drv.queueFamilyProperties device)[b]? with
  | none => simp
  | some f => simp

theorem getGraphicsQueueFamilyIndex_graphics_spec (drv : Driver) (device : VkPhysicalDevice) (surface : VkSurfaceKHR) (g : Nat)
    (h : (getGraphicsQueueFamilyIndex drv device surface).graphicsQueue = some g) :
    graphicsAt drv device g = true
      ∧ (∀ c, (∃ a, a ≤ c ∧ graphicsAt drv device a = true)
          → (∃ b, b ≤ c ∧ presentAt drv device surface b = true) → g ≤ c)
      ∧ (∀ j, g < j → graphicsAt drv device j = true
          → ∃ b, b < j ∧ presentAt drv device surface b = true) := by
  unfold getGraphicsQueueFamilyIndex at h
  refine ⟨?_, ?_, ?_⟩
  · rcases getGraphicsQueueFamilyIndexLoop_graphics_source drv device surface _ 0 _ g h
      with hq | ⟨k, f, hk, hf, hg⟩
    · exact absurd hq (by simp)
    · have hgk : g = k := by omega
      rw [graphicsAt_iff, hgk]
      exact ⟨f, hk, hf⟩
  · rintro c ⟨a, hac, ha⟩ ⟨b, hbc, hb⟩
    obtain ⟨fa, hfa, hga⟩ := (graphicsAt_iff drv device a).mp ha
    obtain ⟨fb, hfb, hpb⟩ := (presentAt_iff drv device surface b).mp hb
    have hbound := (getGraphicsQueueFamilyIndexLoop_le_completion drv device surface
      (drv.queueFamilyProperties device) 0 {} c
      (Or.inr ⟨a, fa, hac, hfa, hga⟩)
      (Or.inr ⟨b, fb, hbc, hfb, by simpa using hpb⟩)).1 g h
    rcases hbound with hq | hle
    · exact absurd hq (by simp)
    · omega
  · intro j hgj hj
    obtain ⟨fj, hfj, hgfj⟩ := (graphicsAt_iff drv device j).mp hj
    rcases getGraphicsQueueFamilyIndexLoop_graphics_last drv device surface
      (drv.queueFamilyProperties device) 0 {} g j fj h hfj hgfj
      with hle | hq | ⟨b, fb, hbj, hb, hfb⟩
    · omega
    · exact absurd hq (by simp)
    · exact ⟨b, hbj, (presentAt_iff drv device surface b).mpr ⟨fb, hb, by simpa using hfb⟩⟩

theorem getGraphicsQueueFamilyIndex_present_spec (drv : Driver) (device : VkPhysicalDevice) (surface : VkSurfaceKHR) (p : Nat)
    (h : (getGraphicsQueueFamilyIndex drv device surface).presentQueue = some p) :
    presentAt drv device surface p = true
      ∧ (∀ c, (∃ a, a ≤ c ∧ graphicsAt drv device a = true)
          → (∃ b, b ≤ c ∧ presentAt drv device surface b = true) → p ≤ c) := by
  unfold getGraphicsQueueFamilyIndex at h
  refine ⟨?_, ?_⟩
  · rcases getGraphicsQueueFamilyIndexLoop_present_source drv device surface _ 0 _ p h
      with hq | ⟨k, f, hk, hf, hp⟩
    · exact absurd hq (by simp)
    · have hpk : p = k := by omega
      rw [presentAt_iff, hpk]
      exact ⟨f, hk, by simpa using hf⟩
  · rintro c ⟨a, hac, ha⟩ ⟨b, hbc, hb⟩
    obtain ⟨fa, hfa, hga⟩ := (graphicsAt_iff drv device a).mp ha
    obtain ⟨fb, hfb, hpb⟩ := (presentAt_iff drv device surface b).mp hb
    have hbound := (getGraphicsQueueFamilyIndexLoop_le_completion drv device surface
      (drv.queueFamilyProperties device) 0 {} c
      (Or.inr ⟨a, fa, hac, hfa, hga⟩)
      (Or.inr ⟨b, fb, hbc, hfb, by simpa using hpb⟩)).2 p h
    rcases hbound with hq | hle
    · exact absurd hq (by simp)
    · omega

theorem getGraphicsQueueFamilyIndex_graphics_isSome (drv : Driver) (device : VkPhysicalDevice) (surface : VkSurfaceKHR) (a : Nat)
    (ha : graphicsAt drv device a = true) :
    (getGraphicsQueueFamilyIndex drv device surface).graphicsQueue.isSome = true := by
  obtain ⟨fa, hfa, hga⟩ := (graphicsAt_iff drv device a).mp ha
  exact getGraphicsQueueFamilyIndexLoop_graphics_isSome drv device surface _ 0 _
    (Or.inr ⟨a, fa, hfa, hga⟩)

theorem getGraphicsQueueFamilyIndex_present_isSome (drv : Driver) (device : VkPhysicalDevice) (surface : VkSurfaceKHR) (b : Nat)
    (hb : presentAt drv device surface b = true) :
    (getGraphicsQueueFamilyIndex drv device surface).presentQueue.isSome = true := by
  obtain ⟨fb, hfb, hpb⟩ := (presentAt_iff drv device surface b).mp hb
  exact getGraphicsQueueFamilyIndexLoop_present_isSome drv device surface _ 0 _
    (Or.inr ⟨b, fb, hfb, by simpa using hpb⟩)

/-- C14, as the code has it: on a device with two graphics families of which only the
second can present, `getGraphicsQueueFamilyIndex` returns graphics index 1, although
family 0 has a queue and supports graphics. -/
theorem getGraphicsQueueFamilyIndex_graphics_not_first :
    getGraphicsQueueFamilyIndex driverTwoGraphicsFamilies 1 1
        = { graphicsQueue := some 1, presentQueue := some 1 }
      ∧ graphicsAt driverTwoGraphicsFamilies 1 0 = true
      ∧ (getGraphicsQueueFamilyIndex driverTwoGraphicsFamilies 1 1).graphicsQueue ≠ some 0 := by
  decide

/-- C14, amended: whenever some family has `queueCount > 0` and supports graphics, the
graphics index returned by `getGraphicsQueueFamilyIndex` is the last (largest) such
family index among the families the loop visits: it names a graphics family, it is at
most every index by which both a graphics and a present family have occurred, and every
later graphics family comes after a present family (so the loop had stopped before
it). It is the first graphics family when a present family occurs at or before that
first graphics family, and the last graphics family of the list when no family can
present. -/
theorem getGraphicsQueueFamilyIndex_graphics_last_visited (drv : Driver) (device : VkPhysicalDevice) (surface : VkSurfaceKHR) (a : Nat)
    (ha : graphicsAt drv device a = true) :
    ∃ g, (getGraphicsQueueFamilyIndex drv device surface).graphicsQueue = some g
      ∧ graphicsAt drv device g = true
      ∧ (∀ c, (∃ a₁, a₁ ≤ c ∧ graphicsAt drv device a₁ = true)
          → (∃ b, b ≤ c ∧ presentAt drv device surface b = true) → g ≤ c)
      ∧ (∀ j, g < j → graphicsAt drv device j = true
          → ∃ b, b < j ∧ presentAt drv device surface b = true)
      ∧ ((∀ j, j < a → graphicsAt drv device j = false)
          → (∃ b, b ≤ a ∧ presentAt drv device surface b = true) → g = a)
      ∧ ((∀ b, presentAt drv device surface b = false)
          → ∀ j, graphicsAt drv device j = true → j ≤ g) := by
  have hsome := getGraphicsQueueFamilyIndex_graphics_isSome drv device surface a ha
  obtain ⟨g, hg⟩ := Option.isSome_iff_exists.mp hsome
  obtain ⟨hgfx, hbound, hlater⟩ :=
    getGraphicsQueueFamilyIndex_graphics_spec drv device surface g hg
  refine ⟨g, hg, hgfx, hbound, hlater, ?_, ?_⟩
  · intro hfirst hpresent
    have hle : g ≤ a := hbound a ⟨a, Nat.le_refl a, ha⟩ hpresent
    rcases Nat.lt_or_eq_of_le hle with hlt | heq
    · rw [hfirst g hlt] at hgfx
      exact absurd hgfx (by decide)
    · exact heq
  · intro hnone j hj
    by_contra hgt
    obtain ⟨b, _, hb⟩ := hlater j (by omega) hj
    rw [hnone b] at hb
    exact absurd hb (by decide)

theorem getGraphicsQueueFamilyIndex_graphics_last_visited_witness :
    graphicsAt driverFourFamilies 1 2 = true
      ∧ (getGraphicsQueueFamilyIndex driverFourFamilies 1 1).graphicsQueue = some 2 := by
  obtain ⟨g, hg, _, _, _, hfirst, _⟩ :=
    getGraphicsQueueFamilyIndex_graphics_last_visited driverFourFamilies 1 1 2 (by decide)
  have hg2 : g = 2 := by
    apply hfirst
    · intro j hj
      interval_cases j <;> decide
    · exact ⟨1, by decide, by decide⟩
  rw [hg2] at hg
  exact ⟨by decide, hg⟩

/-- C17: for every list of queue families, the `ActiveQueues` returned by
`getGraphicsQueueFamilyIndex` is complete if and only if the list has some family with
`queueCount > 0` that supports graphics and some family (the same or another) with
`queueCount > 0` that can present to the surface. When complete, the graphics index
names a graphics family, the present index names a present family, and both are at most
every index by which a graphics and a present family have both occurred, hence at most
the index at which completeness is first reached. -/
theorem getGraphicsQueueFamilyIndex_complete_iff (drv : Driver) (device : VkPhysicalDevice) (surface : VkSurfaceKHR) :
    ((getGraphicsQueueFamilyIndex drv device surface).isComplete = true
        ↔ (∃ a, graphicsAt drv device a = true)
          ∧ (∃ b, presentAt drv device surface b = true))
      ∧ ((getGraphicsQueueFamilyIndex drv device surface).isComplete = true
          → ∃ g p, getGraphicsQueueFamilyIndex drv device surface
                = { graphicsQueue := some g, presentQueue := some p }
              ∧ graphicsAt drv device g = true
              ∧ presentAt drv device surface p = true
              ∧ ∀ c, (∃ a, a ≤ c ∧ graphicsAt drv device a = true)
                  → (∃ b, b ≤ c ∧ presentAt drv device surface b = true)
                  → g ≤ c ∧ p ≤ c) := by
  have hparts : (getGraphicsQueueFamilyIndex drv device surface).isComplete = true
      → ∃ g p, getGraphicsQueueFamilyIndex drv device surface
            = { graphicsQueue := some g, presentQueue := some p }
          ∧ graphicsAt drv device g = true
          ∧ presentAt drv device surface p = true
          ∧ ∀ c, (∃ a, a ≤ c ∧ graphicsAt drv device a = true)
              → (∃ b, b ≤ c ∧ presentAt drv device surface b = true)
              → g ≤ c ∧ p ≤ c := by
    intro hcomplete
    simp only [ActiveQueues.isComplete, Bool.and_eq_true] at hcomplete
    obtain ⟨g, hg⟩ := Option.isSome_iff_exists.mp hcomplete.1
    obtain ⟨p, hp⟩ := Option.isSome_iff_exists.mp hcomplete.2
    obtain ⟨hgfx, hgbound, _⟩ :=
      getGraphicsQueueFamilyIndex_graphics_spec drv device surface g hg
    obtain ⟨hprs, hpbound⟩ :=
      getGraphicsQueueFamilyIndex_present_spec drv device surface p hp
    refine ⟨g, p, ?_, hgfx, hprs, fun c hc1 hc2 => ⟨hgbound c hc1 hc2, hpbound c hc1 hc2⟩⟩
    cases hres : getGraphicsQueueFamilyIndex drv device surface with
    | mk gq pq =>
      rw [hres] at hg hp
      simp only at hg hp
      rw [hg, hp]
  refine ⟨⟨?_, ?_⟩, hparts⟩
  · intro hcomplete
    obtain ⟨g, p, _, hgfx, hprs, _⟩ := hparts hcomplete
    exact ⟨⟨g, hgfx⟩, ⟨p, hprs⟩⟩
  · rintro ⟨⟨a, ha⟩, ⟨b, hb⟩⟩
    simp only [ActiveQueues.isComplete, Bool.and_eq_true]
    exact ⟨getGraphicsQueueFamilyIndex_graphics_isSome drv device surface a ha,
      getGraphicsQueueFamilyIndex_present_isSome drv device surface b hb⟩

theorem getGraphicsQueueFamilyIndex_complete_iff_witness :
    (getGraphicsQueueFamilyIndex driverFourFamilies 1 1).isComplete = true
      ∧ getGraphicsQueueFamilyIndex driverFourFamilies 1 1
          = { graphicsQueue := some 2, presentQueue := some 1 } :=
  ⟨(getGraphicsQueueFamilyIndex_complete_iff driverFourFamilies 1 1).1.mpr
     ⟨⟨3, by decide⟩, ⟨1, by decide⟩⟩,
   by decide⟩

end VKUtilities
